import Mathlib

/-!
Shallow embedding of the graph-document synchronization engine of the
containerlab topology designer (src/src/components/ContainerLab.js).

JavaScript conventions used throughout the embedding:
* a JS string-valued field whose only uses are truthiness tests and
  `x || default` is modelled as a Lean `String` where `""` stands for both
  the empty string and `undefined` (they are observationally equal there);
* JS objects used as string-keyed maps are modelled as insertion-ordered
  association lists (`List (String × _)`); assignment updates an existing
  key in place and appends a fresh key at the end, matching JS object
  key-order semantics;
* `parseInt(s, 10)` is modelled by `jsParseInt` below (maximal decimal
  digit prefix after optional whitespace and sign, `none` for `NaN`).
-/

namespace ClabStudio

/-- Characters of `s.split(sep)` for a single-character separator, the only
split shape the source uses (`'/'`, `'.'`, `':'`). Structurally recursive so
that proofs can evaluate it. -/
def splitChar (sep : Char) : List Char → List (List Char)
  | [] => [[]]
  | c :: cs =>
    if c = sep then [] :: splitChar sep cs
    else
      match splitChar sep cs with
      | [] => [[c]]
      | h :: t => (c :: h) :: t

/-- JS `s.split(sep)` for a one-character separator. -/
def jsSplit (s : String) (sep : Char) : List String :=
  (splitChar sep s.toList).map (fun l => String.mk l)

/-- JS `String.prototype.includes(pat)` on character lists. -/
def containsSub (pat : List Char) : List Char → Bool
  | [] => pat.isEmpty
  | c :: cs => pat.isPrefixOf (c :: cs) || containsSub pat cs

/-- JS `s.includes(pat)`. -/
def jsIncludes (s pat : String) : Bool :=
  containsSub pat.toList s.toList

/-- JS `String.prototype.replace(pat, repl)` with a string pattern: replace
only the first occurrence. -/
def replaceFirst (pat repl : List Char) : List Char → List Char
  | [] => []
  | c :: cs =>
    if pat.isPrefixOf (c :: cs) then repl ++ (cs.drop (pat.length - 1))
    else c :: replaceFirst pat repl cs

/-- JS `s.replace(pat, repl)` (first occurrence only). -/
def jsReplace (s pat repl : String) : String :=
  String.mk (replaceFirst pat.toList repl.toList s.toList)

/-- JS `s.trim()`. -/
def jsTrim (s : String) : String :=
  String.mk (((s.toList.dropWhile Char.isWhitespace).reverse.dropWhile
    Char.isWhitespace).reverse)

/-- JS `s.endsWith(pat)`. -/
def jsEndsWith (s pat : String) : Bool :=
  pat.toList.isSuffixOf s.toList

/-- Decimal digit prefix of a character list (the digits `parseInt` consumes). -/
def prefixDigits : List Char → List Char
  | [] => []
  | c :: cs => if c.isDigit then c :: prefixDigits cs else []

/-- Numeric value of a list of decimal digits. -/
def digitsVal (l : List Char) : Nat :=
  l.foldl (fun acc c => acc * 10 + (c.toNat - 48)) 0

/-- Parse a signless digit sequence as `parseInt` would from this point on. -/
def jsParseIntCore (l : List Char) (neg : Bool) : Option Int :=
  let d := prefixDigits l
  if d.isEmpty then none
  else some (if neg then -(digitsVal d : Int) else (digitsVal d : Int))

/-- JS `parseInt(s, 10)`: skip leading whitespace, optional sign, then the
maximal decimal-digit prefix; `none` models `NaN`. -/
def jsParseInt (s : String) : Option Int :=
  match s.toList.dropWhile Char.isWhitespace with
  | '-' :: rest => jsParseIntCore rest true
  | '+' :: rest => jsParseIntCore rest false
  | l => jsParseIntCore l false

/-- JS `newIp.join('.')` for the quadruple the generator assembles. -/
def ipJoin (a b c last : Int) : String :=
  toString a ++ "." ++ toString b ++ "." ++ toString c ++ "." ++ toString last

/-- The function `generateIpsFromSubnet(subnet, count)` (ContainerLab.js lines 180-217):
parse `a.b.c.d/mask`, then emit host addresses `a.b.c.2`, `a.b.c.3`, …,
stopping once the final octet would reach 255; every malformed input
returns `[]`. -/
def generateIpsFromSubnet (subnet : String) (count : Nat) : List String :=
  if jsTrim subnet = "" then []
  else
    match jsSplit subnet '/' with
    | [baseIpStr, maskStr] =>
      match jsParseInt maskStr with
      | none => []
      | some mask =>
        if mask < 0 || 32 < mask then []
        else
          match jsSplit baseIpStr '.' with
          | [s0, s1, s2, s3] =>
            match jsParseInt s0, jsParseInt s1, jsParseInt s2, jsParseInt s3 with
            | some a, some b, some c, some d =>
              if a < 0 || 255 < a || b < 0 || 255 < b || c < 0 || 255 < c ||
                  d < 0 || 255 < d then []
              else
                (List.range (min count 253)).map
                  (fun (i : Nat) => ipJoin a b c ((i : Int) + 2))
            | _, _, _, _ => []
          | _ => []
    | _ => []

/-- A mask part that is non-numeric or outside [0, 32]. -/
def maskMalformed (maskStr : String) : Bool :=
  match jsParseInt maskStr with
  | none => true
  | some m => m < 0 || 32 < m

/-- An octet that is non-numeric or outside [0, 255]. -/
def octetMalformed (oct : String) : Bool :=
  match jsParseInt oct with
  | none => true
  | some v => v < 0 || 255 < v

/-- The malformed-CIDR categories named by the specification: empty string,
wrong part count, non-numeric or out-of-range mask, wrong octet count,
non-numeric octet, octet outside 0-255. Stated from the spec's words to be
compared with `generateIpsFromSubnet`. -/
def cidrMalformedSpec (subnet : String) : Bool :=
  jsTrim subnet = "" ||
  (jsSplit subnet '/').length ≠ 2 ||
  (match jsSplit subnet '/' with
   | [ip, mask] =>
     maskMalformed mask ||
     (jsSplit ip '.').length ≠ 4 ||
     (jsSplit ip '.').any octetMalformed
   | _ => false)

/-- The function `validateInterface` (ContainerLab.js lines 1797-1800): the regular
expression `/^eth[1-9][0-9]?$|^eth[1-9][0-9]$|^eth5[0-4]$/` transcribed
alternative by alternative (the source's alternatives are
`eth[1-9][0-9]?`, `eth[1-4][0-9]`, `eth5[0-4]`). -/
def validateInterface (s : String) : Bool :=
  match s.toList with
  | ['e', 't', 'h', c] => decide ('1' ≤ c ∧ c ≤ '9')
  | ['e', 't', 'h', c1, c2] =>
      decide (('1' ≤ c1 ∧ c1 ≤ '9' ∧ '0' ≤ c2 ∧ c2 ≤ '9') ∨
              ('1' ≤ c1 ∧ c1 ≤ '4' ∧ '0' ≤ c2 ∧ c2 ≤ '9') ∨
              (c1 = '5' ∧ '0' ≤ c2 ∧ c2 ≤ '4'))
  | _ => false

/-- The interface-name grammar as the specification states it: exactly
`eth` followed by an integer in [1, 54]. Stated from the spec's words to
be compared with `validateInterface`. -/
def interfaceNameValidSpec (s : String) : Bool :=
  (List.range 54).any (fun k => s = "eth" ++ toString (k + 1))

/-! ## Data model

Graph side (React Flow nodes/edges as the component populates them) and
document side (the object `updateYaml` assembles before `yaml.dump`, resp.
the object `yaml.load` hands back to `handleYamlChange`). The embedding
identifies a well-formed document text with its parsed object: `yaml.dump`
and `yaml.load` are the external serialization boundary. -/

structure Position where
  x : Int
  y : Int
deriving DecidableEq

structure Bind where
  source : String
  target : String
deriving DecidableEq

/-- The field `node.data.binds` holds `{source, target}` objects when the node was
built in the editor forms, but plain `"source:target"` strings after a
document parse (`handleYamlChange` stores the document's string list
directly). `updateYaml`'s `bind.source && bind.target` filter sees
`undefined` on the string form, so string entries never survive it. -/
inductive BindsVal where
  | objs : List Bind → BindsVal
  | strs : List String → BindsVal
deriving DecidableEq

def BindsVal.len : BindsVal → Nat
  | .objs l => l.length
  | .strs l => l.length

structure CustomField where
  key : String
  value : String
deriving DecidableEq

structure NodeData where
  label : String
  kind : String
  image : String
  binds : BindsVal
  mgmtIp : String
  ipv6MgmtIp : String
  startupConfig : String
  customFields : List CustomField
deriving DecidableEq

structure GraphNode where
  id : String
  position : Position
  data : NodeData
deriving DecidableEq

/-- Edge `data`; `""` models a missing (`undefined`) interface name, which is
falsy exactly like the empty string at every use site. -/
structure EdgeData where
  sourceInterface : String
  targetInterface : String
deriving DecidableEq

structure Edge where
  id : String
  source : String
  target : String
  data : EdgeData
deriving DecidableEq

structure KindConfig where
  showStartupConfig : Bool
  startupConfig : String
  showImage : Bool
  image : String
  showExec : Bool
  exec : List String
  showBinds : Bool
  binds : List String
deriving DecidableEq

structure KindTemplate where
  name : String
  config : KindConfig
deriving DecidableEq

/-- The blank kind template the component resets `kinds` to (and the value
the context receives when a parsed document has no kinds section). -/
def emptyKindTemplate : KindTemplate :=
  { name := "",
    config := { showStartupConfig := false, startupConfig := "", showImage := false,
                image := "", showExec := false, exec := [""], showBinds := false,
                binds := [""] } }

/-- Topology settings: the non-graph state the component keeps alongside the
node/edge lists. -/
structure Settings where
  topologyName : String
  showMgmt : Bool
  mgmtNetwork : String
  ipv4Subnet : String
  showIpv6 : Bool
  ipv6Subnet : String
  showKind : Bool
  kinds : List KindTemplate
  showDefault : Bool
  defaultKind : String
deriving DecidableEq

/-! ### JS objects as association lists -/

/-- First entry for a key, `none` when the key is absent (JS `obj[k]` giving
`undefined`). -/
def objGet? {α : Type} (m : List (String × α)) (k : String) : Option α :=
  (m.find? (fun p => p.fst = k)).map (fun p => p.snd)

/-- JS `obj[k] || []`. -/
def objGetOr (m : List (String × List String)) (k : String) : List String :=
  (objGet? m k).getD []

/-- JS `obj[k] = v`: update an existing key in place, append a fresh key. -/
def objSet {α : Type} (m : List (String × α)) (k : String) (v : α) :
    List (String × α) :=
  if (m.find? (fun p => p.fst = k)).isSome then
    m.map (fun p => if p.fst = k then (k, v) else p)
  else m ++ [(k, v)]

/-- JS `delete obj[k]`. -/
def objDelete {α : Type} (m : List (String × α)) (k : String) :
    List (String × α) :=
  m.filter (fun p => p.fst ≠ k)

/-- The interface registry: node identifier ↦ interface names in use. -/
abbrev Registry := List (String × List String)

/-! ## Document model -/

/-- One node entry of the document (`topology.nodes.<id>`), restricted to the
keys the translator reads or writes. `""` models an absent scalar key and
`[]` an absent `binds`/`env` key: every consumer tests truthiness or applies
`|| ''`, under which the two are indistinguishable. -/
structure DocNode where
  kind : String
  image : String
  binds : List String
  mgmtIpv4 : String
  mgmtIpv6 : String
  startupConfig : String
  env : List (String × String)
deriving DecidableEq

def emptyDocNode : DocNode :=
  { kind := "", image := "", binds := [], mgmtIpv4 := "", mgmtIpv6 := "",
    startupConfig := "", env := [] }

/-- One `topology.links` entry: the two `"<node>:<interface>"` endpoint
strings. -/
structure DocLink where
  ep0 : String
  ep1 : String
deriving DecidableEq

/-- The `mgmt` section. `ipv6Subnet = ""` models an absent `ipv6_subnet` key
(all consumers test truthiness / default with `|| ''`). -/
structure MgmtSection where
  network : String
  ipv4Subnet : String
  ipv6Subnet : String
deriving DecidableEq

/-- One `topology.kinds.<name>` entry; `""`/`[]` model absent keys. (A parsed
`exec: []`/`binds: []` is conflated with the absent key; `updateYaml` never
emits an empty list, so documents produced by the translator are represented
exactly.) -/
structure DocKind where
  startupConfig : String
  image : String
  exec : List String
  binds : List String
deriving DecidableEq

/-- The parsed document object as `handleYamlChange` consumes it.
`topologyNodes`, `links`, `mgmt`, `kinds` and `defaults` distinguish an
absent section from a present-but-empty one because the source does
(`parsedYaml?.topology?.nodes`, `parsedYaml.topology.links || []`, …).
`defaults = some k` models a defaults section with kind `k`. `name = ""`
models an absent `name`. -/
structure RawDoc where
  name : String
  topologyNodes : Option (List (String × DocNode))
  links : Option (List DocLink)
  mgmt : Option MgmtSection
  defaults : Option String
  kinds : Option (List (String × DocKind))
deriving DecidableEq

/-- Document text, identified with what `yaml.load` yields on it: `empty` is
the `""` text (loads as `undefined`), `doc` a well-formed text and its parse,
`malformed` a text `yaml.load` throws on, carrying the error message. -/
inductive YamlText where
  | empty : YamlText
  | doc : RawDoc → YamlText
  | malformed : String → YamlText
deriving DecidableEq

/-- Best-effort load: `some` parse result where one exists. -/
def loadOpt : YamlText → Option RawDoc
  | .empty => none
  | .doc r => some r
  | .malformed _ => none

/-- The component state touched by the synchronization engine: graph, interface
registry, settings, and the generated/editable document copies with the
parse-validity flag. -/
structure AppState where
  nodes : List GraphNode
  edges : List Edge
  settings : Settings
  nodeInterfaces : Registry
  yamlOutput : YamlText
  editableYaml : YamlText
  isYamlValid : Bool
  yamlParseError : String
deriving DecidableEq

/-! ## Graph → document (`updateYaml`, ContainerLab.js lines 648-795) -/

/-- JS `a || b` on strings (`""` is the falsy case). -/
def jsOr (a b : String) : String := if a = "" then b else a

/-- The `env` object built from the custom-field rows:
`if (key && value) env[key] = value`, in order, a later duplicate key
overwriting in place. -/
def envOfFields (fields : List CustomField) : List (String × String) :=
  fields.foldl
    (fun acc f => if f.key ≠ "" ∧ f.value ≠ "" then objSet acc f.key f.value else acc) []

/-- The `validBinds` computation: bind rows with both `source` and `target` non-empty, joined
as `"source:target"`; string-form rows have no `.source`/`.target` fields
(JS `undefined`, falsy), so none survive the filter. -/
def validBindsOf : BindsVal → List String
  | .objs bs => (bs.filter (fun b => b.source ≠ "" ∧ b.target ≠ "")).map
      (fun b => b.source ++ ":" ++ b.target)
  | .strs _ => []

/-- The document entry `updateYaml` emits for one graph node: a spread of the
previous document's entry under the same key, with the graph-owned fields
written over it (`{...existingNode, kind: …, image: …}` plus the conditional
assignments that follow). -/
def docNodeOfGraphNode (prev : Option RawDoc) (node : GraphNode) : String × DocNode :=
  let nodeKey := jsOr node.id node.data.label
  let existing : DocNode :=
    ((prev.bind (fun p => p.topologyNodes)).bind
      (fun ns => objGet? ns nodeKey)).getD emptyDocNode
  let vb := validBindsOf node.data.binds
  (nodeKey,
   { kind := jsOr node.data.kind existing.kind,
     image := jsOr node.data.image existing.image,
     binds := if node.data.binds.len > 0 ∧ vb ≠ [] then vb else existing.binds,
     mgmtIpv4 := jsOr node.data.mgmtIp existing.mgmtIpv4,
     mgmtIpv6 := jsOr node.data.ipv6MgmtIp existing.mgmtIpv6,
     startupConfig := if jsTrim node.data.startupConfig ≠ "" then node.data.startupConfig
       else existing.startupConfig,
     env := if node.data.customFields.any (fun f => f.key ≠ "" ∧ f.value ≠ "") then
         envOfFields node.data.customFields
       else existing.env })

/-- The `topology.kinds.<name>` entry emitted for a declared kind template:
only the explicitly enabled, non-blank sub-fields, list fields filtered of
blank entries. -/
def docKindOfTemplate (c : KindConfig) : DocKind :=
  { startupConfig := if c.showStartupConfig ∧ jsTrim c.startupConfig ≠ "" then
        c.startupConfig else "",
    image := if c.showImage ∧ jsTrim c.image ≠ "" then c.image else "",
    exec := if c.showExec ∧ c.exec.length > 0 ∧ jsTrim (c.exec.headD "") ≠ "" then
        c.exec.filter (fun x => jsTrim x ≠ "") else [],
    binds := if c.showBinds ∧ c.binds.length > 0 ∧ jsTrim (c.binds.headD "") ≠ "" then
        c.binds.filter (fun x => jsTrim x ≠ "") else [] }

/-- The function `updateYaml(updatedNodes, updatedEdges)`: the document object built from
the graph and settings, merged over the best-effort parse of the previous
output; `none` models the early-exit `""` output. -/
def updateYamlDoc (username : String) (prev : Option RawDoc) (st : Settings)
    (updatedNodes : List GraphNode) (updatedEdges : List Edge) : Option RawDoc :=
  if updatedNodes = [] ∧ ¬st.showMgmt ∧ ¬st.showKind ∧ ¬st.showDefault ∧
      st.topologyName = "" then none
  else
    let docNodes := updatedNodes.foldl
      (fun acc node =>
        let kv := docNodeOfGraphNode prev node
        objSet acc kv.fst kv.snd) []
    let links := updatedEdges.map (fun e =>
      { ep0 := e.source ++ ":" ++ jsOr e.data.sourceInterface "eth1",
        ep1 := e.target ++ ":" ++ jsOr e.data.targetInterface "eth1" : DocLink })
    let validKinds := st.kinds.filter (fun k => jsTrim k.name ≠ "")
    some
      { name := if jsIncludes st.topologyName username then st.topologyName
          else username ++ "-" ++ st.topologyName,
        topologyNodes := some docNodes,
        links := if updatedEdges.length > 0 then some links else none,
        mgmt := if st.showMgmt then
            some { network := st.mgmtNetwork, ipv4Subnet := st.ipv4Subnet,
                   ipv6Subnet := if st.showIpv6 ∧ st.ipv6Subnet ≠ "" then st.ipv6Subnet
                     else "" }
          else none,
        defaults := if st.showDefault ∧ st.defaultKind ≠ "" then some st.defaultKind
          else none,
        kinds := if st.showKind ∧ st.kinds.length > 0 ∧ validKinds ≠ [] then
            some (validKinds.foldl
              (fun acc k => objSet acc k.name (docKindOfTemplate k.config)) [])
          else none }

/-- The function `updateYaml` at the state level: store the rendered document (or the
empty text) as both the generated and the editable copies. -/
def updateYamlState (username : String) (st : AppState)
    (updatedNodes : List GraphNode) (updatedEdges : List Edge) : AppState :=
  match updateYamlDoc username (loadOpt st.yamlOutput) st.settings updatedNodes
      updatedEdges with
  | none => { st with yamlOutput := .empty, editableYaml := .empty }
  | some d => { st with yamlOutput := .doc d, editableYaml := .doc d }

/-! ## Document → graph (`handleYamlChange`, ContainerLab.js lines 2025-2209) -/

/-- Index-aware map, the shape of the source's `.map((x, index) => …)`. -/
def mapWithIndex {α β : Type} (f : Nat → α → β) : Nat → List α → List β
  | _, [] => []
  | i, a :: as => f i a :: mapWithIndex f (i + 1) as

/-- The grid position the parser assigns to the node at `index`:
`{x: 100 + (index % 3) * 200, y: 100 + floor(index / 3) * 150}`. -/
def gridPosition (index : Nat) : Position :=
  { x := (100 + (index % 3) * 200 : Nat), y := (100 + (index / 3) * 150 : Nat) }

/-- One parsed graph node. The custom fields come from the `env` object when
present; otherwise from root-level keys outside the source's exclusion list
`['kind','image','binds','mgmt-ipv4','startup-config','env']` — of the keys
the translator writes, only `mgmt-ipv6` escapes that list. At least one
(possibly blank) field row is kept for the form UI. -/
def graphNodeOfDocNode (index : Nat) (nodeName : String) (nd : DocNode) : GraphNode :=
  let fromEnv := nd.env.map (fun p => { key := p.fst, value := p.snd : CustomField })
  let fromRoot := if nd.mgmtIpv6 ≠ "" then
      [{ key := "mgmt-ipv6", value := nd.mgmtIpv6 : CustomField }] else []
  let customFields0 := if nd.env ≠ [] then fromEnv else fromRoot
  let customFields := if customFields0 = [] then [{ key := "", value := "" }]
    else customFields0
  { id := nodeName,
    position := gridPosition index,
    data := { label := nodeName, kind := nd.kind, image := nd.image,
              binds := .strs nd.binds, mgmtIp := nd.mgmtIpv4,
              ipv6MgmtIp := nd.mgmtIpv6, startupConfig := nd.startupConfig,
              customFields := customFields } }

/-- One parsed edge: each endpoint split on `':'` into node id and interface
name (a missing piece is JS `undefined`, modelled `""`); the edge id is the
link's index. -/
def edgeOfDocLink (index : Nat) (link : DocLink) : Edge :=
  let sp := jsSplit link.ep0 ':'
  let tp := jsSplit link.ep1 ':'
  { id := "edge_" ++ toString index,
    source := sp.getD 0 "",
    target := tp.getD 0 "",
    data := { sourceInterface := sp.getD 1 "", targetInterface := tp.getD 1 "" } }

/-- The kind template rebuilt from a parsed `topology.kinds` entry. -/
def kindTemplateOfDocKind (kindName : String) (kc : DocKind) : KindTemplate :=
  { name := kindName,
    config := { showStartupConfig := kc.startupConfig ≠ "",
                startupConfig := kc.startupConfig,
                showImage := kc.image ≠ "",
                image := kc.image,
                showExec := kc.exec ≠ [],
                exec := if kc.exec = [] then [""] else kc.exec,
                showBinds := kc.binds ≠ [],
                binds := if kc.binds = [] then [""] else kc.binds } }

/-- The function `initializeNodeInterfacesFromYaml` (lines 1996-2022): rebuild the registry
wholesale from the link section, resolving each endpoint's node by label;
when the document has no link section the registry is left as it was. -/
def initializeNodeInterfacesFromYaml (r : RawDoc) (currentNodes : List GraphNode)
    (prev : Registry) : Registry :=
  match r.links with
  | none => prev
  | some links =>
    links.foldl (fun acc link =>
      let sp := jsSplit link.ep0 ':'
      let tp := jsSplit link.ep1 ':'
      let acc1 := match currentNodes.find? (fun n => n.data.label = sp.getD 0 "") with
        | some n => if n.id ≠ "" then objSet acc n.id (objGetOr acc n.id ++ [sp.getD 1 ""])
            else acc
        | none => acc
      match currentNodes.find? (fun n => n.data.label = tp.getD 0 "") with
      | some n => if n.id ≠ "" then objSet acc1 n.id (objGetOr acc1 n.id ++ [tp.getD 1 ""])
          else acc1
      | none => acc1) []

/-- The `catch` branch of `handleYamlChange`: flag the document invalid and
keep everything else. -/
def parseFail (st : AppState) (msg : String) : AppState :=
  { st with isYamlValid := false, yamlParseError := "Error parsing YAML: " ++ msg }

/-- The function `handleYamlChange(newYaml)`. The submitted text becomes both document
copies up front. A load failure or a missing `topology.nodes` section lands
in the catch branch with graph, edges and registry untouched — though a
truthy `name` key has already been copied into the topology-name setting,
because `if (parsedYaml?.name) setTopologyName(…)` precedes the check.
Otherwise graph, edges, registry and settings are rebuilt from the document.
Where the source's local `setX` calls and its `updateTopologyState` object
disagree on a field (they are written independently), the embedding follows
the `updateTopologyState` object, the copy that survives navigation. -/
def handleYamlChange (t : YamlText) (st : AppState) : AppState :=
  let st0 := { st with editableYaml := t, yamlOutput := t }
  match t with
  | .empty => parseFail st0 "Invalid YAML structure"
  | .malformed msg => parseFail st0 msg
  | .doc r =>
    let st1 := if r.name ≠ "" then
        { st0 with settings := { st0.settings with topologyName := r.name } }
      else st0
    match r.topologyNodes with
    | none => parseFail st1 "Invalid YAML structure"
    | some docNodes =>
      let newNodes := mapWithIndex (fun i kv => graphNodeOfDocNode i kv.fst kv.snd) 0 docNodes
      let newEdges := mapWithIndex edgeOfDocLink 0 (r.links.getD [])
      let newRegistry := initializeNodeInterfacesFromYaml r newNodes st.nodeInterfaces
      { st1 with
        nodes := newNodes,
        edges := newEdges,
        nodeInterfaces := newRegistry,
        isYamlValid := true,
        yamlParseError := "",
        settings := {
          topologyName := r.name,
          showMgmt := r.mgmt.isSome,
          mgmtNetwork := (r.mgmt.map MgmtSection.network).getD "",
          ipv4Subnet := (r.mgmt.map MgmtSection.ipv4Subnet).getD "",
          showIpv6 := (r.mgmt.map (fun m => decide (m.ipv6Subnet ≠ ""))).getD false,
          ipv6Subnet := (r.mgmt.map MgmtSection.ipv6Subnet).getD "",
          showKind := r.kinds.isSome,
          kinds := match r.kinds with
            | some ks => ks.map (fun kv => kindTemplateOfDocKind kv.fst kv.snd)
            | none => [emptyKindTemplate],
          showDefault := r.defaults.isSome,
          defaultKind := r.defaults.getD "" } }

/-! ## Edit operations -/

structure NodeFormResult where
  state : AppState
  nodeModalWarning : Bool
deriving DecidableEq

structure EdgeFormResult where
  state : AppState
  edgeModalWarning : Bool
  showErrorModal : Bool
  errorMessage : String
deriving DecidableEq

/-- The regex `^<pre>(\d+)$` applied to a label, returning the numeric capture. (The
prefix is assumed free of regex metacharacters, as the shipped prefixes
are.) -/
def matchSuffixNum (pre label : String) : Option Nat :=
  if pre.toList.isPrefixOf label.toList then
    let rest := label.toList.drop pre.toList.length
    if rest ≠ [] ∧ rest.all Char.isDigit then some (digitsVal rest) else none
  else none

/-- The highest numeric suffix among existing labels for a prefix
(`handleModalSubmit` lines 1159-1171). -/
def highestNodeNum (pre : String) (nodes : List GraphNode) : Nat :=
  nodes.foldl (fun acc n =>
    match matchSuffixNum pre n.data.label with
    | some num => if num > acc then num else acc
    | none => acc) 0

/-- The node object a create/modify submit assembles (the
`Object.fromEntries` spread of custom-field rows onto `data` adds only
dynamic keys; the embedding assumes, as the component does, that custom
field keys do not collide with the built-in field names). -/
def mkCreatedNode (baseNode : GraphNode) (pos : Position)
    (finalNodeName nodeKind nodeImage : String) (nodeBinds : BindsVal)
    (mgmtIp ipv6MgmtIp startupConfig : String)
    (customFields : List CustomField) : GraphNode :=
  { baseNode with
    id := finalNodeName,
    position := pos,
    data := { baseNode.data with
              label := finalNodeName, kind := nodeKind,
              image := nodeImage, binds := nodeBinds, mgmtIp := mgmtIp,
              ipv6MgmtIp := ipv6MgmtIp, startupConfig := startupConfig,
              customFields := customFields } }

/-- Bulk creation's IPv6 suffixing: append after `::`, splice after the first
`::` otherwise, plain append when no `::` appears. -/
def ipv6WithSuffix (nodeIpv6MgmtIp : String) (nodeNum : Nat) : String :=
  if jsTrim nodeIpv6MgmtIp ≠ "" then
    if jsEndsWith nodeIpv6MgmtIp "::" then nodeIpv6MgmtIp ++ toString nodeNum
    else if jsIncludes nodeIpv6MgmtIp "::" then
      jsReplace nodeIpv6MgmtIp "::" ("::" ++ toString nodeNum ++ ":")
    else nodeIpv6MgmtIp ++ toString nodeNum
  else ""

/-- The creation arm of `handleModalSubmit` (lines 1154-1287): validate
prefix and kind, number from the highest existing suffix, create one node at
the drop position or `nodeCount` nodes in a 4-per-row grid, then regenerate
the document once over the combined list. -/
def handleModalSubmitCreate (username : String) (st : AppState) (baseNode : GraphNode)
    (isModifying : Bool) (prefixStr nodeName nodeKind nodeImage : String)
    (nodeCount : Nat) (nodeBinds : BindsVal)
    (nodeMgmtIp nodeIpv6MgmtIp nodeStartupConfig : String)
    (nodeCustomFields : List CustomField) : NodeFormResult :=
  if jsTrim prefixStr = "" ∨ jsTrim nodeKind = "" then
    { state := st, nodeModalWarning := true }
  else
    let highest := highestNodeNum prefixStr st.nodes
    if nodeCount = 1 then
      let finalNodeName := jsOr (jsTrim nodeName) (prefixStr ++ toString (highest + 1))
      let node := mkCreatedNode baseNode baseNode.position finalNodeName nodeKind
        nodeImage nodeBinds nodeMgmtIp nodeIpv6MgmtIp nodeStartupConfig nodeCustomFields
      if isModifying then
        -- replaced in place; `newNodesAdded` stays empty, so the document is
        -- regenerated from the stale node list exactly as the source does
        let updatedNodes := st.nodes.map (fun n => if n.id = baseNode.id then node else n)
        let st1 := updateYamlState username st st.nodes st.edges
        { state := { st1 with nodes := updatedNodes }, nodeModalWarning := false }
      else
        let newNodes := st.nodes ++ [node]
        let st1 := { st with nodeInterfaces := objSet st.nodeInterfaces node.id [] }
        let st2 := updateYamlState username st1 newNodes st.edges
        { state := { st2 with nodes := newNodes }, nodeModalWarning := false }
    else
      let newOnes := (List.range nodeCount).map (fun i =>
        let nodeNum := highest + 1 + i
        let pos : Position :=
          { x := baseNode.position.x + (i % 4 : Nat) * 180,
            y := baseNode.position.y + (i / 4 : Nat) * 150 }
        let mgmtWith := if jsTrim nodeMgmtIp ≠ "" then
            (if jsEndsWith nodeMgmtIp "." then nodeMgmtIp else nodeMgmtIp ++ ".") ++
              toString nodeNum
          else ""
        mkCreatedNode baseNode pos (prefixStr ++ toString nodeNum) nodeKind nodeImage
          nodeBinds mgmtWith (ipv6WithSuffix nodeIpv6MgmtIp nodeNum) nodeStartupConfig
          nodeCustomFields)
      let reg := newOnes.foldl (fun acc n => objSet acc n.id []) st.nodeInterfaces
      let allNodes := st.nodes ++ newOnes
      let st1 := { st with nodeInterfaces := reg }
      let st2 := updateYamlState username st1 allNodes st.edges
      { state := { st2 with nodes := allNodes }, nodeModalWarning := false }

/-- The function `handleNodeCountChange` (lines 2452-2461): `parseInt(value, 10) || 1`,
clamped with `Math.max(1, Math.min(count, 100))`. -/
def handleNodeCountChange (value : String) : Nat :=
  let count : Int := match jsParseInt value with
    | none => 1
    | some n => if n = 0 then 1 else n
  (max 1 (min count 100)).toNat

/-- The function `handleModifyNodeSubmit` (lines 2493-2565): rebuild the node from the
form fields; when the name changed, rewrite edge endpoints (an `if`/`else if`
pair, so a self-loop gets only its source endpoint rewritten) and move the
registry entry to the new key; regenerate the document from the updated
lists before committing them. -/
def handleModifyNodeSubmit (username : String) (st : AppState) (targetNode : GraphNode)
    (nodeName nodeKind nodeImage : String) (nodeBinds : BindsVal)
    (nodeMgmtIp nodeIpv6MgmtIp nodeStartupConfig : String)
    (nodeCustomFields : List CustomField) : NodeFormResult :=
  if jsTrim nodeKind = "" then { state := st, nodeModalWarning := true }
  else
    let oldNodeId := targetNode.id
    let wasNameChanged : Bool := nodeName ≠ targetNode.data.label
    let updatedNodeId := if wasNameChanged then nodeName else oldNodeId
    let updatedNode : GraphNode := { targetNode with
      id := updatedNodeId,
      data := { targetNode.data with
                label := nodeName, kind := nodeKind,
                image := nodeImage, binds := nodeBinds, mgmtIp := nodeMgmtIp,
                ipv6MgmtIp := nodeIpv6MgmtIp, startupConfig := nodeStartupConfig,
                customFields := nodeCustomFields } }
    let updatedNodes := st.nodes.map (fun n => if n.id = oldNodeId then updatedNode else n)
    let updatedEdges := if wasNameChanged then
        st.edges.map (fun e =>
          if e.source = oldNodeId then { e with source := updatedNodeId }
          else if e.target = oldNodeId then { e with target := updatedNodeId }
          else e)
      else st.edges
    let st1 := updateYamlState username st updatedNodes updatedEdges
    let st2 := { st1 with nodes := updatedNodes }
    let st3 := if wasNameChanged then
        let st2e := { st2 with edges := updatedEdges }
        if (objGet? st.nodeInterfaces oldNodeId).isSome then
          { st2e with nodeInterfaces :=
              objDelete (objSet st.nodeInterfaces updatedNodeId
                (objGetOr st.nodeInterfaces oldNodeId)) oldNodeId }
        else st2e
      else st2
    { state := st3, nodeModalWarning := false }

/-- Both registry additions of `handleEdgeModalSubmit` read the pre-update
map (`{...prev, [src]: [...(prev[src]||[]), si], [tgt]: …}`); for a
self-loop the target assignment wins. -/
def edgeRegistryAdd (reg : Registry) (src tgt si ti : String) : Registry :=
  objSet (objSet reg src (objGetOr reg src ++ [si])) tgt (objGetOr reg tgt ++ [ti])

/-- The modify-arm retraction: drop the old edge's two reservations, both
reads against the pre-update map. -/
def edgeRegistryRetract (reg : Registry) (oldEdge : Edge) : Registry :=
  objSet (objSet reg oldEdge.source
      ((objGetOr reg oldEdge.source).filter
        (fun i => i ≠ oldEdge.data.sourceInterface)))
    oldEdge.target
    ((objGetOr reg oldEdge.target).filter (fun i => i ≠ oldEdge.data.targetInterface))

/-- The function `handleEdgeModalSubmit` (lines 1803-1881): empty interface fields raise
the inline warning; interface names failing `validateInterface` raise the
error modal; otherwise the registry gains the new reservations
unconditionally and the edge is committed — unless an identical
(source, target, sourceInterface, targetInterface) tuple already exists, in
which case the list is returned unchanged with only a console log. -/
def handleEdgeModalSubmit (username : String) (st : AppState) (newEdgeData : Edge)
    (sourceInterface targetInterface : String) (isModifyingEdge : Bool) :
    EdgeFormResult :=
  if jsTrim sourceInterface = "" ∨ jsTrim targetInterface = "" then
    { state := st, edgeModalWarning := true, showErrorModal := false,
      errorMessage := "" }
  else if ¬validateInterface sourceInterface ∨ ¬validateInterface targetInterface then
    { state := st, edgeModalWarning := false, showErrorModal := true,
      errorMessage := "Interface names must be in the format \"eth\" followed by a number (1-54)" }
  else
    let edgeId := if isModifyingEdge then newEdgeData.id
      else "edge_" ++ newEdgeData.source ++ "_" ++ newEdgeData.target ++ "_" ++
        sourceInterface ++ "_" ++ targetInterface
    let newEdge : Edge := { newEdgeData with
      id := edgeId,
      data := { sourceInterface := sourceInterface,
                targetInterface := targetInterface } }
    let reg0 := if isModifyingEdge then
        match st.edges.find? (fun e => e.id = newEdge.id) with
        | some oldEdge => edgeRegistryRetract st.nodeInterfaces oldEdge
        | none => st.nodeInterfaces
      else st.nodeInterfaces
    let reg1 := edgeRegistryAdd reg0 newEdge.source newEdge.target sourceInterface
      targetInterface
    if isModifyingEdge then
      let updatedEdges := st.edges.map (fun e => if e.id = newEdge.id then newEdge else e)
      let st1 := { st with nodeInterfaces := reg1 }
      let st2 := updateYamlState username st1 st.nodes updatedEdges
      { state := { st2 with edges := updatedEdges }, edgeModalWarning := false,
        showErrorModal := false, errorMessage := "" }
    else
      match st.edges.find? (fun e =>
          e.source = newEdge.source ∧ e.target = newEdge.target ∧
          e.data.sourceInterface = sourceInterface ∧
          e.data.targetInterface = targetInterface) with
      | some _ =>
        -- `console.log("Duplicate edge not added")`: edge list and document
        -- untouched, modal closes, no user-visible error is raised
        { state := { st with nodeInterfaces := reg1 }, edgeModalWarning := false,
          showErrorModal := false, errorMessage := "" }
      | none =>
        let updatedEdges := st.edges ++ [newEdge]
        let st1 := { st with nodeInterfaces := reg1 }
        let st2 := updateYamlState username st1 st.nodes updatedEdges
        { state := { st2 with edges := updatedEdges }, edgeModalWarning := false,
          showErrorModal := false, errorMessage := "" }

/-! ## Concrete fixtures for the scenario claims -/

def initialSettings : Settings :=
  { topologyName := "u-lab", showMgmt := false, mgmtNetwork := "", ipv4Subnet := "",
    showIpv6 := false, ipv6Subnet := "", showKind := false,
    kinds := [emptyKindTemplate], showDefault := false, defaultKind := "" }

def emptyState : AppState :=
  { nodes := [], edges := [], settings := initialSettings, nodeInterfaces := [],
    yamlOutput := .empty, editableYaml := .empty, isYamlValid := true,
    yamlParseError := "" }

/-- The pending node a canvas drop creates for a router before the form is
submitted (`onDrop`: position plus a placeholder label). -/
def pendingRouterNode : GraphNode :=
  { id := "node_0", position := { x := 400, y := 200 },
    data := { label := "router node", kind := "", image := "", binds := .objs [],
              mgmtIp := "", ipv6MgmtIp := "", startupConfig := "",
              customFields := [{ key := "", value := "" }] } }

/-- Submit the create form once for a `ceos` node with the given name prefix
(the form defaults: one blank bind row, one blank custom-field row). -/
def createNode (st : AppState) (pre : String) : AppState :=
  (handleModalSubmitCreate "u" st pendingRouterNode false pre "" "ceos"
    "ceos:4.34.1F" 1 (.strs [""]) "" "" "" [{ key := "", value := "" }]).state

/-- Submit the edge form for a fresh connection, as `onConnect` hands it over
(source and target node ids; the interfaces typed into the form). -/
def connectEdge (st : AppState) (src tgt si ti : String) : EdgeFormResult :=
  handleEdgeModalSubmit "u" st
    { id := "", source := src, target := tgt,
      data := { sourceInterface := "", targetInterface := "" } } si ti false

/-- leaf1 and spine1 created. -/
def stateLeafSpine : AppState := createNode (createNode emptyState "leaf") "spine"

/-- leaf1:eth1 connected to spine1:eth1. -/
def stateLeafSpineLinked : AppState :=
  (connectEdge stateLeafSpine "leaf1" "spine1" "eth1" "eth1").state

/-- leaf1, spine1, spine2 created. -/
def stateThreeNodes : AppState := createNode stateLeafSpine "spine"

/-- leaf1, leaf2, leaf3 created. -/
def stateLeafTriple : AppState :=
  createNode (createNode (createNode emptyState "leaf") "leaf") "leaf"

/-- leaf1 with a committed self-loop edge leaf1:eth1 ↔ leaf1:eth2. -/
def stateSelfLoop : AppState :=
  (connectEdge (createNode emptyState "leaf") "leaf1" "leaf1" "eth1" "eth2").state

/-- A single-node state with a populated custom field, used for the
round-trip scenarios. -/
def stateOneNode : AppState :=
  { nodes := [{ id := "leaf1", position := { x := 400, y := 200 },
                data := { label := "leaf1", kind := "ceos", image := "ceos:4.34.1F",
                          binds := .objs [], mgmtIp := "", ipv6MgmtIp := "",
                          startupConfig := "",
                          customFields := [{ key := "ROLE", value := "leaf" }] } }],
    edges := [],
    settings := initialSettings,
    nodeInterfaces := [("leaf1", [])],
    yamlOutput := .empty, editableYaml := .empty, isYamlValid := true,
    yamlParseError := "" }

/-- A syntactically valid document carrying a `name` but no `topology.nodes`
section. -/
def docNoNodes : RawDoc :=
  { name := "newname", topologyNodes := none, links := none, mgmt := none,
    defaults := none, kinds := none }

/-- A document whose single link references a node identifier (`ghost`)
absent from its node entries. -/
def docDangling : RawDoc :=
  { name := "u-lab",
    topologyNodes := some [("n1", { emptyDocNode with kind := "ceos" })],
    links := some [{ ep0 := "ghost:eth1", ep1 := "n1:eth1" }],
    mgmt := none, defaults := none, kinds := none }

/-- The state `stateOneNode` after one document regeneration. -/
def renderedOneNode : AppState :=
  updateYamlState "u" stateOneNode stateOneNode.nodes stateOneNode.edges

/-- The document of `renderedOneNode` fed back through the parser. -/
def reparsedOneNode : AppState :=
  handleYamlChange renderedOneNode.yamlOutput renderedOneNode

/-- Committing leaf1:eth1→spine1:eth1 and then leaf1:eth1→spine2:eth1: two
distinct 4-tuples that share the (leaf1, eth1) source pair. -/
def doubleUseResult : EdgeFormResult :=
  connectEdge (connectEdge stateThreeNodes "leaf1" "spine1" "eth1" "eth1").state
    "leaf1" "spine2" "eth1" "eth1"

/-- The committed leaf1 node of the linked two-node state (the value the
modify modal holds when opened on it). -/
def leafNodeValue : GraphNode := stateLeafSpineLinked.nodes.getD 0 pendingRouterNode

/-- The (source, target, sourceInterface, targetInterface) identity of an
edge, the tuple the duplicate check compares. -/
def edgeTuple (e : Edge) : String × String × String × String :=
  (e.source, e.target, e.data.sourceInterface, e.data.targetInterface)

/-- Proof abbreviation: the document entry `updateYaml` produces for a graph
node when there is no previous document and the node's bind rows and
startup-config survive unchanged (see `docNodeOfGraphNode_clean`). -/
def docNodeClean (n : GraphNode) : DocNode :=
  { kind := n.data.kind, image := n.data.image, binds := [],
    mgmtIpv4 := n.data.mgmtIp, mgmtIpv6 := n.data.ipv6MgmtIp,
    startupConfig := n.data.startupConfig,
    env := n.data.customFields.map (fun f => (f.key, f.value)) }

/-- A kind template whose enabled sub-fields are non-blank and whose disabled
sub-fields sit at their form defaults — the configurations that survive a
render/parse cycle unchanged. -/
def kindFaithful (k : KindTemplate) : Prop :=
  jsTrim k.name ≠ "" ∧
  (k.config.showStartupConfig = true → jsTrim k.config.startupConfig ≠ "") ∧
  (k.config.showStartupConfig = false → k.config.startupConfig = "") ∧
  (k.config.showImage = true → jsTrim k.config.image ≠ "") ∧
  (k.config.showImage = false → k.config.image = "") ∧
  (k.config.showExec = true → k.config.exec ≠ [] ∧ ∀ x ∈ k.config.exec, jsTrim x ≠ "") ∧
  (k.config.showExec = false → k.config.exec = [""]) ∧
  (k.config.showBinds = true → k.config.binds ≠ [] ∧ ∀ x ∈ k.config.binds, jsTrim x ≠ "") ∧
  (k.config.showBinds = false → k.config.binds = [""])

instance (k : KindTemplate) : Decidable (kindFaithful k) := by
  unfold kindFaithful
  infer_instance

/-- Renaming the self-looped leaf1 to core1 through the modify form. -/
def renameSelfLoopResult : NodeFormResult :=
  handleModifyNodeSubmit "u" stateSelfLoop (stateSelfLoop.nodes.getD 0 pendingRouterNode)
    "core1" "ceos" "ceos:4.34.1F" (.strs [""]) "" "" "" [{ key := "", value := "" }]

/-! ## Helper lemmas -/

theorem find?_append_of_none {α : Type} {p : α → Bool} {l l' : List α}
    (h : l.find? p = none) : (l ++ l').find? p = l'.find? p := by
  rw [List.find?_append, h, Option.none_or]

theorem objSet_fresh {α : Type} {m : List (String × α)} {k : String} (v : α)
    (h : m.find? (fun p => p.fst = k) = none) : objSet m k v = m ++ [(k, v)] := by
  simp [objSet, h]

theorem find?_set_map_self {α : Type} {m : List (String × α)} {k : String} (v : α)
    (h : (m.find? (fun p => p.fst = k)).isSome) :
    (m.map (fun p => if p.fst = k then (k, v) else p)).find? (fun p => p.fst = k) =
      some (k, v) := by
  induction m with
  | nil => simp at h
  | cons p m ih =>
    by_cases hp : p.fst = k
    · simp [hp]
    · have h' : (m.find? fun p => p.fst = k).isSome := by
        simpa [List.find?_cons, hp] using h
      simp [hp, ih h']

theorem find?_set_map_ne {α : Type} {m : List (String × α)} {k k' : String} (v : α)
    (h : k' ≠ k) :
    (m.map (fun p => if p.fst = k then (k, v) else p)).find? (fun p => p.fst = k') =
      m.find? (fun p => p.fst = k') := by
  induction m with
  | nil => rfl
  | cons p m ih =>
    simp only [List.map_cons]
    by_cases hp : p.fst = k
    · rw [if_pos hp]
      rw [List.find?_cons_of_neg _
        (by simp only [decide_eq_true_eq]; exact fun hh => h hh.symm)]
      rw [List.find?_cons_of_neg _
        (by simp only [decide_eq_true_eq]; rw [hp]; exact fun hh => h hh.symm)]
      exact ih
    · rw [if_neg hp]
      by_cases hq : p.fst = k'
      · rw [List.find?_cons_of_pos _ (by simp only [decide_eq_true_eq]; exact hq),
          List.find?_cons_of_pos _ (by simp only [decide_eq_true_eq]; exact hq)]
      · rw [List.find?_cons_of_neg _ (by simp only [decide_eq_true_eq]; exact hq),
          List.find?_cons_of_neg _ (by simp only [decide_eq_true_eq]; exact hq)]
        exact ih

theorem objGet?_objSet_self {α : Type} (m : List (String × α)) (k : String) (v : α) :
    objGet? (objSet m k v) k = some v := by
  unfold objSet
  by_cases h : (m.find? (fun p => p.fst = k)).isSome
  · rw [if_pos h]
    unfold objGet?
    rw [find?_set_map_self v h]
    rfl
  · rw [if_neg h]
    unfold objGet?
    have hn : m.find? (fun p => p.fst = k) = none := by
      cases hf : m.find? (fun p => p.fst = k) with
      | none => rfl
      | some x => rw [hf] at h; simp at h
    rw [find?_append_of_none hn]
    simp [List.find?]

theorem objGet?_objSet_ne {α : Type} (m : List (String × α)) {k k' : String} (v : α)
    (h : k' ≠ k) : objGet? (objSet m k v) k' = objGet? m k' := by
  unfold objSet objGet?
  by_cases hs : (m.find? (fun p => p.fst = k)).isSome
  · rw [if_pos hs, find?_set_map_ne v h]
  · rw [if_neg hs, List.find?_append]
    have hone : [(k, v)].find? (fun p => p.fst = k') = none := by
      rw [List.find?_cons_of_neg _
        (by simp only [decide_eq_true_eq]; exact fun hh => h hh.symm)]
      rfl
    rw [hone]
    simp

theorem objGet?_objDelete_self {α : Type} (m : List (String × α)) (k : String) :
    objGet? (objDelete m k) k = none := by
  unfold objDelete objGet?
  have hnone : (m.filter (fun p => p.fst ≠ k)).find? (fun p => p.fst = k) = none := by
    rw [List.find?_eq_none]
    intro x hx
    have h1 := List.of_mem_filter hx
    simp only [decide_eq_true_eq] at h1 ⊢
    exact h1
  rw [hnone]
  rfl

theorem objGet?_objDelete_ne {α : Type} (m : List (String × α)) {k k' : String}
    (h : k' ≠ k) : objGet? (objDelete m k) k' = objGet? m k' := by
  unfold objDelete objGet?
  congr 1
  induction m with
  | nil => rfl
  | cons p m ih =>
    by_cases hp : p.fst = k
    · have hfilter : (p :: m).filter (fun q => q.fst ≠ k) =
          m.filter (fun q => q.fst ≠ k) := by
        simp [List.filter_cons, hp]
      rw [hfilter, ih]
      rw [List.find?_cons_of_neg _
        (by simp only [decide_eq_true_eq]; rw [hp]; exact fun hh => h hh.symm)]
    · have hfilter : (p :: m).filter (fun q => q.fst ≠ k) =
          p :: m.filter (fun q => q.fst ≠ k) := by
        simp [List.filter_cons, hp]
      rw [hfilter]
      by_cases hq : p.fst = k'
      · rw [List.find?_cons_of_pos _ (by simp only [decide_eq_true_eq]; exact hq),
          List.find?_cons_of_pos _ (by simp only [decide_eq_true_eq]; exact hq)]
      · rw [List.find?_cons_of_neg _ (by simp only [decide_eq_true_eq]; exact hq),
          List.find?_cons_of_neg _ (by simp only [decide_eq_true_eq]; exact hq)]
        exact ih

theorem countP_map_congr {α β : Type} {l : List α} {f : α → β} {p : β → Bool}
    {q : α → Bool} (h : ∀ a ∈ l, p (f a) = q a) : (l.map f).countP p = l.countP q := by
  induction l with
  | nil => rfl
  | cons a l ih =>
    have ha := h a (List.mem_cons_self a l)
    have ih' := ih (fun b hb => h b (List.mem_cons_of_mem a hb))
    simp only [List.map_cons, List.countP_cons, ha, ih']

theorem mapWithIndex_length {α β : Type} (f : Nat → α → β) :
    ∀ (l : List α) (i : Nat), (mapWithIndex f i l).length = l.length := by
  intro l
  induction l with
  | nil => intro i; rfl
  | cons a l ih => intro i; simp [mapWithIndex, ih]

theorem mapWithIndex_map {α β γ : Type} (f : Nat → β → γ) (g : α → β) :
    ∀ (l : List α) (i : Nat),
      mapWithIndex f i (l.map g) = mapWithIndex (fun j a => f j (g a)) i l := by
  intro l
  induction l with
  | nil => intro i; rfl
  | cons a l ih => intro i; simp [mapWithIndex, ih]

theorem mapWithIndex_congr {α β : Type} {f g : Nat → α → β} {l : List α}
    (h : ∀ i a, a ∈ l → f i a = g i a) :
    ∀ i, mapWithIndex f i l = mapWithIndex g i l := by
  induction l with
  | nil => intro i; rfl
  | cons a l ih =>
    intro i
    have ha := h i a (List.mem_cons_self a l)
    have ih' := ih (fun j b hb => h j b (List.mem_cons_of_mem a hb)) (i + 1)
    simp [mapWithIndex, ha, ih']

theorem foldl_congr_mem {α β : Type} {l : List α} {f g : β → α → β}
    (h : ∀ acc a, a ∈ l → f acc a = g acc a) :
    ∀ acc, l.foldl f acc = l.foldl g acc := by
  induction l with
  | nil => intro acc; rfl
  | cons a l ih =>
    intro acc
    have ha := h acc a (List.mem_cons_self a l)
    have ih' := ih (fun acc' b hb => h acc' b (List.mem_cons_of_mem a hb))
    simp only [List.foldl_cons, ha, ih']

theorem foldl_objSet_fresh {α β : Type} (k : β → String) (v : β → α) :
    ∀ (l : List β) (acc : List (String × α)),
      (∀ b ∈ l, acc.find? (fun p => p.fst = k b) = none) →
      (l.map k).Nodup →
      l.foldl (fun a b => objSet a (k b) (v b)) acc = acc ++ l.map (fun b => (k b, v b)) := by
  intro l
  induction l with
  | nil => intro acc _ _; simp
  | cons b l ih =>
    intro acc hfresh hnodup
    have hb := hfresh b (List.mem_cons_self b l)
    have hset := objSet_fresh (v b) hb
    simp only [List.foldl_cons, hset]
    have hcons : k b ∉ l.map k ∧ (l.map k).Nodup :=
      List.nodup_cons.mp (by simpa using hnodup)
    have hnodup' : (l.map k).Nodup := hcons.2
    have hne : ∀ b' ∈ l, k b' ≠ k b := by
      intro b' hb' hh
      exact hcons.1 (hh ▸ List.mem_map_of_mem k hb')
    have hfresh' : ∀ b' ∈ l, (acc ++ [(k b, v b)]).find? (fun p => p.fst = k b') = none := by
      intro b' hb'
      rw [find?_append_of_none (hfresh b' (List.mem_cons_of_mem b hb'))]
      rw [List.find?_cons_of_neg _
        (by simp only [decide_eq_true_eq]; exact fun hh => hne b' hb' hh.symm)]
      rfl
    rw [ih (acc ++ [(k b, v b)]) hfresh' hnodup']
    simp

/-! ## Claim theorems -/

/-- C4: `validateInterface` agrees with the specified grammar on "eth1",
"eth54", "eth0", "Eth1" and "eth", but its first regex alternative
`^eth[1-9][0-9]?$` also accepts every two-digit number up to 99, so "eth55"
(and "eth99") pass validation although the grammar — and the code's own
error message — stop at 54. Edges submitted with such names are therefore
committed. -/
theorem C4_interface_grammar_code_behavior :
    validateInterface "eth1" = true ∧ validateInterface "eth54" = true ∧
    validateInterface "eth0" = false ∧ validateInterface "Eth1" = false ∧
    validateInterface "eth" = false ∧
    validateInterface "eth55" = true ∧ interfaceNameValidSpec "eth55" = false ∧
    validateInterface "eth99" = true ∧ interfaceNameValidSpec "eth99" = false ∧
    (connectEdge stateLeafSpine "leaf1" "spine1" "eth55" "eth1").state.edges.length = 1 := by
  decide

/-- C8 counterexample: for "10.0.0.0/30" with count 10 the allocator emits
ten addresses up to 10.0.0.11, sailing past the /30 broadcast-equivalent
10.0.0.3 (e.g. it produces 10.0.0.4): the bound is not mask-relative. -/
theorem C8_mask_bound_counterexample :
    generateIpsFromSubnet "10.0.0.0/30" 10 =
      ["10.0.0.2", "10.0.0.3", "10.0.0.4", "10.0.0.5", "10.0.0.6", "10.0.0.7",
       "10.0.0.8", "10.0.0.9", "10.0.0.10", "10.0.0.11"] ∧
    "10.0.0.4" ∈ generateIpsFromSubnet "10.0.0.0/30" 10 := by
  decide

/-- The generator either rejects its input outright or maps over
`range (min count 253)`. -/
theorem generateIps_shape (subnet : String) (count : Nat) :
    generateIpsFromSubnet subnet count = [] ∨
    ∃ a b c : Int, generateIpsFromSubnet subnet count =
      (List.range (min count 253)).map (fun (i : Nat) => ipJoin a b c ((i : Int) + 2)) := by
  unfold generateIpsFromSubnet
  repeat' split
  all_goals first
    | (left; rfl)
    | (right; exact ⟨_, _, _, rfl⟩)

/-- C8 amended: the allocator is bounded and non-throwing, but its stop
condition is the fixed final octet 255 regardless of mask: it emits at most
`min count 253` addresses, each of the form `a.b.c.(i+2)` with `i + 2 ≤ 254`.
For subnets smaller than /24 it does NOT stop at the mask's
broadcast-equivalent. -/
theorem C8_mask_bound_amended (subnet : String) (count : Nat) :
    (generateIpsFromSubnet subnet count).length ≤ min count 253 ∧
    ∀ ip ∈ generateIpsFromSubnet subnet count,
      ∃ a b c : Int, ∃ i : Nat, i < 253 ∧ ip = ipJoin a b c ((i : Int) + 2) := by
  rcases generateIps_shape subnet count with h | ⟨a, b, c, h⟩
  · rw [h]
    exact ⟨Nat.zero_le _, fun ip hip => absurd hip (List.not_mem_nil ip)⟩
  · rw [h]
    constructor
    · rw [List.length_map, List.length_range]
    · intro ip hip
      rw [List.mem_map] at hip
      obtain ⟨i, hi, rfl⟩ := hip
      rw [List.mem_range] at hi
      exact ⟨a, b, c, i, Nat.lt_of_lt_of_le hi (Nat.min_le_right _ _), rfl⟩

/-- C8 amended, witnessed at the /30 example: ten bounded addresses, and the
first produced address decomposes as required. -/
theorem C8_mask_bound_amended_witness :
    (generateIpsFromSubnet "10.0.0.0/30" 10).length ≤ min 10 253 ∧
    (∃ a b c : Int, ∃ i : Nat, i < 253 ∧
      "10.0.0.2" = ipJoin a b c ((i : Int) + 2)) :=
  ⟨(C8_mask_bound_amended "10.0.0.0/30" 10).1,
   (C8_mask_bound_amended "10.0.0.0/30" 10).2 "10.0.0.2" (by decide)⟩

/-- Every input malformed in one of the specified senses (empty, wrong part
count, bad mask, wrong octet count, non-numeric or out-of-range octet)
yields the empty sequence. -/
theorem generateIps_malformed :
    ∀ (subnet : String) (count : Nat), cidrMalformedSpec subnet = true →
      generateIpsFromSubnet subnet count = [] := by
  intro subnet count h
  unfold cidrMalformedSpec at h
  unfold generateIpsFromSubnet
  split
  next => rfl
  next h1 =>
    split
    next baseIpStr maskStr hsp =>
      rw [hsp] at h
      simp only [Bool.or_eq_true, decide_eq_true_eq, List.length_cons,
        List.length_nil] at h
      split
      next => rfl
      next mask hm =>
        split
        next => rfl
        next hrange =>
          split
          next s0 s1 s2 s3 hip =>
            split
            next a b c d ha hb hc hd =>
              split
              next => rfl
              next hcond =>
                exfalso
                simp only [Bool.or_eq_true, decide_eq_true_eq, not_or] at hrange hcond
                rcases h with (h | h) | (h | h) | h
                · exact h1 h
                · exact h rfl
                · unfold maskMalformed at h
                  rw [hm] at h
                  simp only [Bool.or_eq_true, decide_eq_true_eq] at h
                  omega
                · rw [hip] at h
                  simp at h
                · rw [hip] at h
                  simp only [List.any_cons, List.any_nil, Bool.or_false] at h
                  unfold octetMalformed at h
                  rw [ha, hb, hc, hd] at h
                  simp only [Bool.or_eq_true, decide_eq_true_eq] at h
                  rcases h with (h | h) | (h | h) | (h | h) | (h | h) <;> omega
            next => rfl
          next => rfl
    next => rfl

/-- For every well-formed CIDR string — one that survives every check the
parser applies — the allocator produces exactly the addresses
`a.b.c.(i+2)` for `i < min(count, 253)`. -/
theorem generateIps_wellformed :
    ∀ (subnet : String) (count : Nat) (baseIpStr maskStr s0 s1 s2 s3 : String)
      (mask a b c d : Int),
      jsTrim subnet ≠ "" →
      jsSplit subnet '/' = [baseIpStr, maskStr] →
      jsParseInt maskStr = some mask → 0 ≤ mask → mask ≤ 32 →
      jsSplit baseIpStr '.' = [s0, s1, s2, s3] →
      jsParseInt s0 = some a → jsParseInt s1 = some b →
      jsParseInt s2 = some c → jsParseInt s3 = some d →
      0 ≤ a → a ≤ 255 → 0 ≤ b → b ≤ 255 → 0 ≤ c → c ≤ 255 → 0 ≤ d → d ≤ 255 →
      generateIpsFromSubnet subnet count =
        (List.range (min count 253)).map
          (fun (i : Nat) => ipJoin a b c ((i : Int) + 2)) := by
  intro subnet count baseIpStr maskStr s0 s1 s2 s3 mask a b c d
  intro h1 h2 h3 hm1 hm2 h6 h7 h8 h9 h10 ha1 ha2 hb1 hb2 hc1 hc2 hd1 hd2
  unfold generateIpsFromSubnet
  rw [if_neg h1, h2]
  dsimp only
  rw [h3]
  dsimp only
  rw [if_neg (by
    simp only [Bool.or_eq_true, decide_eq_true_eq, not_or]
    omega)]
  rw [h6]
  dsimp only
  rw [h7, h8, h9, h10]
  dsimp only
  rw [if_neg (by
    simp only [Bool.or_eq_true, decide_eq_true_eq, not_or]
    omega)]

/-- C7 counterexample: for the well-formed input "192.168.1.0/24" with
count 300 the allocator emits only 253 addresses, not the 300 the claim's
"generates count host addresses" requires — the sequence is capped before
the final octet reaches 255. -/
theorem C7_count_cap_counterexample :
    (generateIpsFromSubnet "192.168.1.0/24" 300).length = 253 ∧
    (generateIpsFromSubnet "192.168.1.0/24" 300).length ≠ 300 := by
  have h := generateIps_wellformed "192.168.1.0/24" 300 "192.168.1.0" "24"
    "192" "168" "1" "0" 24 192 168 1 0
    (by decide) (by decide) (by decide) (by decide) (by decide) (by decide)
    (by decide) (by decide) (by decide) (by decide) (by decide) (by decide)
    (by decide) (by decide) (by decide) (by decide) (by decide) (by decide)
  rw [h, List.length_map, List.length_range]
  exact ⟨by decide, by decide⟩

/-- C7 amended: for every well-formed IPv4 CIDR string a.b.c.d/mask the
allocator generates the host addresses a.b.c.2, a.b.c.3, … incrementing by
1 for min(count, 253) steps — exactly count addresses whenever
count ≤ 253 — so allocateAddressSequence("192.168.1.0/24", 5) yields
exactly .2 through .6; and every malformed CIDR input (empty string, wrong
part count, non-numeric or out-of-range mask, wrong octet count,
non-numeric or out-of-range octet) yields the empty sequence rather than
an error. -/
theorem C7_address_allocation_amended :
    generateIpsFromSubnet "192.168.1.0/24" 5 =
      ["192.168.1.2", "192.168.1.3", "192.168.1.4", "192.168.1.5", "192.168.1.6"] ∧
    (∀ (subnet : String) (count : Nat) (baseIpStr maskStr s0 s1 s2 s3 : String)
      (mask a b c d : Int),
      jsTrim subnet ≠ "" →
      jsSplit subnet '/' = [baseIpStr, maskStr] →
      jsParseInt maskStr = some mask → 0 ≤ mask → mask ≤ 32 →
      jsSplit baseIpStr '.' = [s0, s1, s2, s3] →
      jsParseInt s0 = some a → jsParseInt s1 = some b →
      jsParseInt s2 = some c → jsParseInt s3 = some d →
      0 ≤ a → a ≤ 255 → 0 ≤ b → b ≤ 255 → 0 ≤ c → c ≤ 255 → 0 ≤ d → d ≤ 255 →
      generateIpsFromSubnet subnet count =
        (List.range (min count 253)).map
          (fun (i : Nat) => ipJoin a b c ((i : Int) + 2))) ∧
    (∀ (subnet : String) (count : Nat), cidrMalformedSpec subnet = true →
      generateIpsFromSubnet subnet count = []) :=
  ⟨by decide, generateIps_wellformed, generateIps_malformed⟩

/-- C7 amended witness: the well-formed clause instantiated at
"192.168.1.0/24" with count 5 and the malformed clause at a three-octet
input. -/
theorem C7_address_allocation_amended_witness :
    generateIpsFromSubnet "192.168.1.0/24" 5 =
      (List.range (min 5 253)).map
        (fun (i : Nat) => ipJoin 192 168 1 ((i : Int) + 2)) ∧
    cidrMalformedSpec "10.0.0/24" = true ∧
    generateIpsFromSubnet "10.0.0/24" 7 = [] :=
  ⟨C7_address_allocation_amended.2.1 "192.168.1.0/24" 5 "192.168.1.0" "24"
      "192" "168" "1" "0" 24 192 168 1 0
      (by decide) (by decide) (by decide) (by decide) (by decide) (by decide)
      (by decide) (by decide) (by decide) (by decide) (by decide) (by decide)
      (by decide) (by decide) (by decide) (by decide) (by decide) (by decide),
   by decide,
   C7_address_allocation_amended.2.2 "10.0.0/24" 7 (by decide)⟩

/-- C10 counterexample: a document with a `name` but no `topology.nodes`
section is flagged invalid, yet the topology-name setting is overwritten
("u-lab" becomes "newname") before the internal throw — the settings are not
left unchanged. -/
theorem C10_missing_nodes_counterexample :
    (handleYamlChange (.doc docNoNodes) emptyState).settings.topologyName = "newname" ∧
    emptyState.settings.topologyName = "u-lab" ∧
    (handleYamlChange (.doc docNoNodes) emptyState).isYamlValid = false := by
  decide

/-- C10 amended: on a document lacking `topology.nodes` the parse throws
internally, the invalid flag and message are set, the submitted text is
retained as both document copies, and the graph, edges, registry, and all
settings except the topology name are unchanged — the topology name is
overwritten whenever the document carries a non-empty `name`. -/
theorem C10_missing_nodes_amended (st : AppState) (r : RawDoc)
    (h : r.topologyNodes = none) :
    (handleYamlChange (.doc r) st).isYamlValid = false ∧
    (handleYamlChange (.doc r) st).yamlParseError =
      "Error parsing YAML: Invalid YAML structure" ∧
    (handleYamlChange (.doc r) st).yamlOutput = .doc r ∧
    (handleYamlChange (.doc r) st).editableYaml = .doc r ∧
    (handleYamlChange (.doc r) st).nodes = st.nodes ∧
    (handleYamlChange (.doc r) st).edges = st.edges ∧
    (handleYamlChange (.doc r) st).nodeInterfaces = st.nodeInterfaces ∧
    (handleYamlChange (.doc r) st).settings = { st.settings with
      topologyName := if r.name ≠ "" then r.name else st.settings.topologyName } := by
  unfold handleYamlChange
  dsimp only
  rw [h]
  by_cases hn : r.name = ""
  · simp [parseFail, hn]
  · simp [parseFail, hn]

/-- C10 amended witness: the concrete no-nodes document against the empty
state. -/
theorem C10_missing_nodes_amended_witness :
    (handleYamlChange (.doc docNoNodes) emptyState).isYamlValid = false ∧
    (handleYamlChange (.doc docNoNodes) emptyState).yamlParseError =
      "Error parsing YAML: Invalid YAML structure" ∧
    (handleYamlChange (.doc docNoNodes) emptyState).yamlOutput = .doc docNoNodes ∧
    (handleYamlChange (.doc docNoNodes) emptyState).editableYaml = .doc docNoNodes ∧
    (handleYamlChange (.doc docNoNodes) emptyState).nodes = emptyState.nodes ∧
    (handleYamlChange (.doc docNoNodes) emptyState).edges = emptyState.edges ∧
    (handleYamlChange (.doc docNoNodes) emptyState).nodeInterfaces =
      emptyState.nodeInterfaces ∧
    (handleYamlChange (.doc docNoNodes) emptyState).settings =
      { emptyState.settings with
        topologyName := if docNoNodes.name ≠ "" then docNoNodes.name
          else emptyState.settings.topologyName } :=
  C10_missing_nodes_amended emptyState docNoNodes (by decide)

/-- C5 counterexample: parsing a document whose link references the
non-existent node "ghost" keeps that edge — the resulting graph has one node
"n1" and one edge with source "ghost", a dangling edge that was not
dropped. -/
theorem C5_dangling_edge_counterexample :
    (handleYamlChange (.doc docDangling) emptyState).nodes.map GraphNode.id = ["n1"] ∧
    (handleYamlChange (.doc docDangling) emptyState).edges.map Edge.source = ["ghost"] ∧
    ((handleYamlChange (.doc docDangling) emptyState).nodes.all
      (fun n => n.id ≠ "ghost")) = true ∧
    (handleYamlChange (.doc docDangling) emptyState).isYamlValid = true := by
  decide

/-- C5 amended: the parser maps every link entry to an edge unconditionally —
no edge is dropped for referencing a non-existent node, so the edge count
always equals the link count and dangling edges survive the parse. -/
theorem C5_dangling_edge_amended (st : AppState) (r : RawDoc)
    (ns : List (String × DocNode)) (h : r.topologyNodes = some ns) :
    (handleYamlChange (.doc r) st).edges.length = (r.links.getD []).length := by
  unfold handleYamlChange
  dsimp only
  rw [h]
  by_cases hn : r.name = ""
  · simp only [hn]
    exact mapWithIndex_length _ _ _
  · simp only [hn]
    exact mapWithIndex_length _ _ _

/-- C5 amended witness: the dangling-link document yields exactly as many
edges as links. -/
theorem C5_dangling_edge_amended_witness :
    (handleYamlChange (.doc docDangling) emptyState).edges.length =
      (docDangling.links.getD []).length :=
  C5_dangling_edge_amended emptyState docDangling
    [("n1", { emptyDocNode with kind := "ceos" })] (by decide)

/-- C3 counterexample: resubmitting the existing leaf1:eth1→spine1:eth1 tuple
leaves the edge count at 1 but raises no user-visible error — neither the
error modal nor the inline warning fires and the message is empty; the drop
is silent (console log only). -/
theorem C3_duplicate_edge_counterexample :
    (connectEdge stateLeafSpineLinked "leaf1" "spine1" "eth1" "eth1").showErrorModal
      = false ∧
    (connectEdge stateLeafSpineLinked "leaf1" "spine1" "eth1" "eth1").edgeModalWarning
      = false ∧
    (connectEdge stateLeafSpineLinked "leaf1" "spine1" "eth1" "eth1").errorMessage
      = "" ∧
    (connectEdge stateLeafSpineLinked "leaf1" "spine1" "eth1" "eth1").state.edges.length
      = 1 ∧
    stateLeafSpineLinked.edges.length = 1 := by
  decide

/-- C3 amended: a duplicate (source, target, sourceInterface, targetInterface)
submission is rejected in the sense that the edge list is unchanged, but
silently: no error modal, no warning, no message — not the user-visible
validation error the claim describes. -/
theorem C3_duplicate_edge_amended (username : String) (st : AppState) (ned : Edge)
    (si ti : String) (h1 : jsTrim si ≠ "") (h2 : jsTrim ti ≠ "")
    (h3 : validateInterface si = true) (h4 : validateInterface ti = true)
    (hdup : ∃ e ∈ st.edges, e.source = ned.source ∧ e.target = ned.target ∧
      e.data.sourceInterface = si ∧ e.data.targetInterface = ti) :
    (handleEdgeModalSubmit username st ned si ti false).state.edges = st.edges ∧
    (handleEdgeModalSubmit username st ned si ti false).showErrorModal = false ∧
    (handleEdgeModalSubmit username st ned si ti false).edgeModalWarning = false ∧
    (handleEdgeModalSubmit username st ned si ti false).errorMessage = "" := by
  unfold handleEdgeModalSubmit
  rw [if_neg (by push_neg; exact ⟨h1, h2⟩)]
  rw [if_neg (by simp [h3, h4])]
  simp only [Bool.false_eq_true, if_false]
  split
  next e heq => exact ⟨rfl, rfl, rfl, rfl⟩
  next heq =>
    exfalso
    obtain ⟨e, hmem, hs, ht, hsi, hti⟩ := hdup
    have hnone := List.find?_eq_none.mp heq e hmem
    simp only [decide_eq_true_eq] at hnone
    exact hnone ⟨hs, ht, hsi, hti⟩

/-- C3 amended witness: the two-node scenario instantiated concretely. -/
theorem C3_duplicate_edge_amended_witness :
    (handleEdgeModalSubmit "u" stateLeafSpineLinked
      { id := "", source := "leaf1", target := "spine1",
        data := { sourceInterface := "", targetInterface := "" } }
      "eth1" "eth1" false).state.edges = stateLeafSpineLinked.edges ∧
    (handleEdgeModalSubmit "u" stateLeafSpineLinked
      { id := "", source := "leaf1", target := "spine1",
        data := { sourceInterface := "", targetInterface := "" } }
      "eth1" "eth1" false).showErrorModal = false ∧
    (handleEdgeModalSubmit "u" stateLeafSpineLinked
      { id := "", source := "leaf1", target := "spine1",
        data := { sourceInterface := "", targetInterface := "" } }
      "eth1" "eth1" false).edgeModalWarning = false ∧
    (handleEdgeModalSubmit "u" stateLeafSpineLinked
      { id := "", source := "leaf1", target := "spine1",
        data := { sourceInterface := "", targetInterface := "" } }
      "eth1" "eth1" false).errorMessage = "" :=
  C3_duplicate_edge_amended "u" stateLeafSpineLinked
    { id := "", source := "leaf1", target := "spine1",
      data := { sourceInterface := "", targetInterface := "" } }
    "eth1" "eth1" (by decide) (by decide) (by decide) (by decide)
    ⟨stateLeafSpineLinked.edges.getD 0
      { id := "", source := "", target := "",
        data := { sourceInterface := "", targetInterface := "" } },
      by decide, by decide, by decide, by decide, by decide⟩

/-- C6: the node-count input is clamped to [1, 100]; with leaf1..leaf3
present, requesting 5 nodes with prefix "leaf" commits exactly leaf4..leaf8
in one transition (the node list becomes the old list plus the five new
consecutive names, no gaps or collisions); and any submission with an empty
kind leaves the state untouched and raises the form warning. -/
theorem C6_bulk_create_numbering :
    (∀ v : String, 1 ≤ handleNodeCountChange v ∧ handleNodeCountChange v ≤ 100) ∧
    (handleModalSubmitCreate "u" stateLeafTriple pendingRouterNode false "leaf" ""
        "ceos" "ceos:4.34.1F" 5 (.strs [""]) "" "" ""
        [{ key := "", value := "" }]).state.nodes.map GraphNode.id =
      ["leaf1", "leaf2", "leaf3", "leaf4", "leaf5", "leaf6", "leaf7", "leaf8"] ∧
    (handleModalSubmitCreate "u" stateLeafTriple pendingRouterNode false "leaf" ""
        "ceos" "ceos:4.34.1F" 5 (.strs [""]) "" "" ""
        [{ key := "", value := "" }]).nodeModalWarning = false ∧
    ∀ (username : String) (st : AppState) (bn : GraphNode) (pre nm img : String)
      (cnt : Nat) (nb : BindsVal) (m i sc : String) (cf : List CustomField),
      (handleModalSubmitCreate username st bn false pre nm "" img cnt nb m i sc
        cf).state = st ∧
      (handleModalSubmitCreate username st bn false pre nm "" img cnt nb m i sc
        cf).nodeModalWarning = true := by
  refine ⟨?_, by decide, by decide, ?_⟩
  · intro v
    unfold handleNodeCountChange
    cases hv : jsParseInt v with
    | none => decide
    | some n =>
      dsimp only
      by_cases hn : n = 0
      · rw [if_pos hn]
        decide
      · rw [if_neg hn]
        constructor <;> omega
  · intro username st bn pre nm img cnt nb m i sc cf
    unfold handleModalSubmitCreate
    split
    next => exact ⟨rfl, rfl⟩
    next hcond => exact absurd (Or.inr rfl) hcond

/-- C9 counterexample: committing leaf1:eth1→spine1:eth1 and then
leaf1:eth1→spine2:eth1 succeeds (distinct 4-tuples), producing a committed,
operation-reachable state in which two edges share the
(source, sourceInterface) pair (leaf1, eth1) — the pair-uniqueness invariant
does not hold. -/
theorem C9_pair_uniqueness_counterexample :
    doubleUseResult.state.edges.countP
      (fun e => e.source == "leaf1" && e.data.sourceInterface == "eth1") = 2 ∧
    doubleUseResult.state.edges.length = 2 ∧
    doubleUseResult.showErrorModal = false ∧
    doubleUseResult.edgeModalWarning = false := by
  decide

/-- C9 amended: the only uniqueness the edge-commit path enforces is on full
(source, target, sourceInterface, targetInterface) tuples — if all committed
edges have pairwise-distinct tuples, they still do after any non-modify edge
submission. Pairs such as (source, sourceInterface) may repeat. -/
theorem C9_tuple_uniqueness_amended (username : String) (st : AppState) (ned : Edge)
    (si ti : String)
    (h : st.edges.Pairwise (fun a b => edgeTuple a ≠ edgeTuple b)) :
    ((handleEdgeModalSubmit username st ned si ti false).state.edges).Pairwise
      (fun a b => edgeTuple a ≠ edgeTuple b) := by
  unfold handleEdgeModalSubmit
  split
  next => exact h
  next =>
    split
    next => exact h
    next =>
      simp only [Bool.false_eq_true, if_false]
      split
      next e heq => exact h
      next heq =>
        dsimp only
        rw [List.pairwise_append]
        refine ⟨h, List.pairwise_singleton _ _, ?_⟩
        intro a ha b hb
        rw [List.mem_singleton] at hb
        subst hb
        have hnp := List.find?_eq_none.mp heq a ha
        simp only [decide_eq_true_eq] at hnp
        intro htup
        apply hnp
        simp only [edgeTuple, Prod.mk.injEq] at htup
        exact ⟨htup.1, htup.2.1, htup.2.2.1, htup.2.2.2⟩

/-- C9 amended witness: adding a second, tuple-distinct edge to the linked
two-node state keeps all tuples pairwise distinct. -/
theorem C9_tuple_uniqueness_amended_witness :
    ((handleEdgeModalSubmit "u" stateLeafSpineLinked
      { id := "", source := "leaf1", target := "spine1",
        data := { sourceInterface := "", targetInterface := "" } }
      "eth2" "eth2" false).state.edges).Pairwise
      (fun a b => edgeTuple a ≠ edgeTuple b) :=
  C9_tuple_uniqueness_amended "u" stateLeafSpineLinked
    { id := "", source := "leaf1", target := "spine1",
      data := { sourceInterface := "", targetInterface := "" } }
    "eth2" "eth2" (by decide)

/-- C2 counterexample: with a committed self-loop edge leaf1:eth1↔leaf1:eth2
(built through the edge form, which does not forbid source = target),
renaming leaf1 to core1 rewrites only the source endpoint — the rename's
`if`/`else if` never reaches the target — so one edge still references
leaf1 afterwards instead of zero. -/
theorem C2_rename_cascade_counterexample :
    stateSelfLoop.edges.map (fun e => (e.source, e.target)) = [("leaf1", "leaf1")] ∧
    renameSelfLoopResult.state.nodes.map GraphNode.id = ["core1"] ∧
    renameSelfLoopResult.state.edges.map (fun e => (e.source, e.target)) =
      [("core1", "leaf1")] ∧
    renameSelfLoopResult.state.edges.countP
      (fun e => e.source == "leaf1" || e.target == "leaf1") = 1 := by
  decide

/-- C2 amended: when the renamed node has no committed self-loop and the new
identifier is not referenced by any existing edge, the rename cascade is
complete: zero edges reference the old identifier, the count of edges
referencing the new identifier equals the pre-rename count for the old one,
and the registry entry moves (old key deleted, not copied) — all within the
same submission, before the document is regenerated from the updated
lists. -/
theorem C2_rename_cascade_amended (username : String) (st : AppState)
    (targetNode : GraphNode) (B nodeKind nodeImage : String) (nb : BindsVal)
    (mip ip6 scfg : String) (cf : List CustomField)
    (hk : jsTrim nodeKind ≠ "")
    (hlab : targetNode.data.label = targetNode.id)
    (hBA : B ≠ targetNode.id)
    (hself : ∀ e ∈ st.edges, ¬(e.source = targetNode.id ∧ e.target = targetNode.id))
    (hfresh : ∀ e ∈ st.edges, e.source ≠ B ∧ e.target ≠ B)
    (hreg : (objGet? st.nodeInterfaces targetNode.id).isSome) :
    (∀ e ∈ (handleModifyNodeSubmit username st targetNode B nodeKind nodeImage nb
        mip ip6 scfg cf).state.edges,
      e.source ≠ targetNode.id ∧ e.target ≠ targetNode.id) ∧
    (handleModifyNodeSubmit username st targetNode B nodeKind nodeImage nb
        mip ip6 scfg cf).state.edges.countP
        (fun e => decide (e.source = B ∨ e.target = B)) =
      st.edges.countP
        (fun e => decide (e.source = targetNode.id ∨ e.target = targetNode.id)) ∧
    objGet? (handleModifyNodeSubmit username st targetNode B nodeKind nodeImage nb
        mip ip6 scfg cf).state.nodeInterfaces targetNode.id = none ∧
    objGet? (handleModifyNodeSubmit username st targetNode B nodeKind nodeImage nb
        mip ip6 scfg cf).state.nodeInterfaces B =
      objGet? st.nodeInterfaces targetNode.id := by
  unfold handleModifyNodeSubmit
  rw [if_neg hk]
  have hBlab : ¬(B = targetNode.data.label) := by rw [hlab]; exact hBA
  simp only [hBlab, decide_not, decide_False, Bool.not_false, if_true]
  rw [if_pos hreg]
  refine ⟨?_, ?_, ?_, ?_⟩
  · intro e' he'
    dsimp only at he'
    rw [List.mem_map] at he'
    obtain ⟨e, he, rfl⟩ := he'
    by_cases h1 : e.source = targetNode.id
    · rw [if_pos h1]
      exact ⟨fun hh => hBA hh, fun hh => hself e he ⟨h1, hh⟩⟩
    · rw [if_neg h1]
      by_cases h2 : e.target = targetNode.id
      · rw [if_pos h2]
        exact ⟨h1, fun hh => hBA hh⟩
      · rw [if_neg h2]
        exact ⟨h1, h2⟩
  · dsimp only
    apply countP_map_congr
    intro e he
    by_cases h1 : e.source = targetNode.id
    · rw [if_pos h1, decide_eq_decide]
      simp [h1]
    · rw [if_neg h1]
      by_cases h2 : e.target = targetNode.id
      · rw [if_pos h2, decide_eq_decide]
        simp [h1, h2]
      · rw [if_neg h2, decide_eq_decide]
        simp [h1, h2, (hfresh e he).1, (hfresh e he).2]
  · dsimp only
    exact objGet?_objDelete_self _ _
  · dsimp only
    rw [objGet?_objDelete_ne _ hBA, objGet?_objSet_self]
    obtain ⟨l, hl⟩ := Option.isSome_iff_exists.mp hreg
    unfold objGetOr
    rw [hl]
    rfl

/-- C2 amended witness: renaming leaf1 to core1 in the linked two-node state
cascades completely — no edge references leaf1, the core1 reference count
matches, and the registry entry moved. -/
theorem C2_rename_cascade_amended_witness :
    (∀ e ∈ (handleModifyNodeSubmit "u" stateLeafSpineLinked leafNodeValue "core1"
        "ceos" "ceos:4.34.1F" (.strs [""]) "" "" ""
        [{ key := "", value := "" }]).state.edges,
      e.source ≠ leafNodeValue.id ∧ e.target ≠ leafNodeValue.id) ∧
    (handleModifyNodeSubmit "u" stateLeafSpineLinked leafNodeValue "core1"
        "ceos" "ceos:4.34.1F" (.strs [""]) "" "" ""
        [{ key := "", value := "" }]).state.edges.countP
        (fun e => decide (e.source = "core1" ∨ e.target = "core1")) =
      stateLeafSpineLinked.edges.countP
        (fun e => decide (e.source = leafNodeValue.id ∨ e.target = leafNodeValue.id)) ∧
    objGet? (handleModifyNodeSubmit "u" stateLeafSpineLinked leafNodeValue "core1"
        "ceos" "ceos:4.34.1F" (.strs [""]) "" "" ""
        [{ key := "", value := "" }]).state.nodeInterfaces leafNodeValue.id = none ∧
    objGet? (handleModifyNodeSubmit "u" stateLeafSpineLinked leafNodeValue "core1"
        "ceos" "ceos:4.34.1F" (.strs [""]) "" "" ""
        [{ key := "", value := "" }]).state.nodeInterfaces "core1" =
      objGet? stateLeafSpineLinked.nodeInterfaces leafNodeValue.id :=
  C2_rename_cascade_amended "u" stateLeafSpineLinked leafNodeValue "core1" "ceos"
    "ceos:4.34.1F" (.strs [""]) "" "" "" [{ key := "", value := "" }]
    (by decide) (by decide) (by decide) (by decide) (by decide) (by decide)

theorem jsOr_empty (a : String) : jsOr a "" = a := by
  unfold jsOr
  by_cases h : a = "" <;> simp [h]

theorem jsOr_of_ne {a : String} (b : String) (h : a ≠ "") : jsOr a b = a :=
  if_neg h

theorem ne_empty_of_jsTrim_ne {a : String} (h : jsTrim a ≠ "") : a ≠ "" := by
  intro hc
  subst hc
  exact h rfl

theorem envOfFields_eq_map {fields : List CustomField}
    (hvalid : ∀ f ∈ fields, f.key ≠ "" ∧ f.value ≠ "")
    (hnodup : (fields.map CustomField.key).Nodup) :
    envOfFields fields = fields.map (fun f => (f.key, f.value)) := by
  unfold envOfFields
  rw [foldl_congr_mem (g := fun acc (f : CustomField) => objSet acc f.key f.value)
    (fun acc f hf => if_pos (hvalid f hf))]
  have := foldl_objSet_fresh CustomField.key (fun f => f.value) fields []
    (fun _ _ => rfl) hnodup
  simpa using this

theorem docNodeOfGraphNode_clean (n : GraphNode)
    (hid : n.id ≠ "")
    (hbinds : validBindsOf n.data.binds = [])
    (hsc : jsTrim n.data.startupConfig = "" → n.data.startupConfig = "")
    (hne : n.data.customFields ≠ [])
    (hvalid : ∀ f ∈ n.data.customFields, f.key ≠ "" ∧ f.value ≠ "")
    (hnodup : (n.data.customFields.map CustomField.key).Nodup) :
    docNodeOfGraphNode none n = (n.id, docNodeClean n) := by
  unfold docNodeOfGraphNode docNodeClean
  simp only [Option.none_bind, Option.getD_none, hbinds]
  rw [jsOr_of_ne n.data.label hid]
  have hany : n.data.customFields.any (fun f => f.key ≠ "" ∧ f.value ≠ "") = true := by
    cases hcf : n.data.customFields with
    | nil => exact absurd hcf hne
    | cons f fs =>
      have hf := hvalid f (by rw [hcf]; exact List.mem_cons_self f fs)
      simp [List.any_cons, hf.1, hf.2]
  rw [hany]
  simp only [if_true]
  refine Prod.ext rfl ?_
  simp only [DocNode.mk.injEq]
  refine ⟨jsOr_empty _, jsOr_empty _, ?_, jsOr_empty _, jsOr_empty _, ?_, ?_⟩
  · rw [if_neg (fun hc => hc.2 rfl)]
    rfl
  · by_cases ht : jsTrim n.data.startupConfig = ""
    · rw [if_neg (fun hc => hc ht), hsc ht]
      rfl
    · rw [if_pos ht]
  · exact envOfFields_eq_map hvalid hnodup

theorem graphNodeOfDocNode_clean (i : Nat) (n : GraphNode)
    (hlab : n.data.label = n.id) (hne : n.data.customFields ≠ []) :
    graphNodeOfDocNode i n.id (docNodeClean n) =
      { n with
        position := gridPosition i,
        data := { n.data with binds := .strs [] } } := by
  obtain ⟨nid, npos, ndata⟩ := n
  obtain ⟨nlab, nkind, nimg, nbinds, nmg, nip6, nsc, ncf⟩ := ndata
  dsimp at hlab hne ⊢
  subst hlab
  unfold graphNodeOfDocNode docNodeClean
  dsimp only
  have henv : (ncf.map (fun f => (f.key, f.value))) ≠ [] := by
    intro hc
    exact hne (List.map_eq_nil_iff.mp hc)
  rw [if_pos henv]
  have hmapmap : (ncf.map (fun f => (f.key, f.value))).map
      (fun p => ({ key := p.fst, value := p.snd } : CustomField)) = ncf := by
    rw [List.map_map]
    have hcomp : ((fun p : String × String =>
        ({ key := p.fst, value := p.snd } : CustomField)) ∘
        (fun f : CustomField => (f.key, f.value))) = id := by
      funext f
      rfl
    rw [hcomp, List.map_id]
  rw [hmapmap, if_neg hne]

theorem edgeOfDocLink_clean (i : Nat) (e : Edge)
    (hsi : e.data.sourceInterface ≠ "") (hti : e.data.targetInterface ≠ "")
    (hsp : jsSplit (e.source ++ ":" ++ e.data.sourceInterface) ':' =
      [e.source, e.data.sourceInterface])
    (htp : jsSplit (e.target ++ ":" ++ e.data.targetInterface) ':' =
      [e.target, e.data.targetInterface]) :
    edgeOfDocLink i
      { ep0 := e.source ++ ":" ++ jsOr e.data.sourceInterface "eth1",
        ep1 := e.target ++ ":" ++ jsOr e.data.targetInterface "eth1" } =
      { e with id := "edge_" ++ toString i } := by
  obtain ⟨eid, esrc, etgt, edata⟩ := e
  obtain ⟨esi, eti⟩ := edata
  dsimp at hsi hti hsp htp ⊢
  unfold edgeOfDocLink
  rw [jsOr_of_ne _ hsi, jsOr_of_ne _ hti]
  dsimp only
  rw [hsp, htp]
  rfl

theorem docKind_scalar_roundtrip (sfl : Bool) (v : String)
    (h1 : sfl = true → jsTrim v ≠ "") (h2 : sfl = false → v = "") :
    decide ((if sfl = true ∧ jsTrim v ≠ "" then v else "") ≠ "") = sfl ∧
    (if sfl = true ∧ jsTrim v ≠ "" then v else "") = v := by
  cases sfl with
  | false =>
    rw [if_neg (fun hc => Bool.false_ne_true hc.1)]
    exact ⟨by decide, (h2 rfl).symm⟩
  | true =>
    rw [if_pos ⟨rfl, h1 rfl⟩]
    exact ⟨by simp [ne_empty_of_jsTrim_ne (h1 rfl)], rfl⟩

theorem docKind_list_roundtrip (sfl : Bool) (l : List String)
    (h1 : sfl = true → l ≠ [] ∧ ∀ x ∈ l, jsTrim x ≠ "")
    (h2 : sfl = false → l = [""]) :
    decide ((if sfl = true ∧ l.length > 0 ∧ jsTrim (l.headD "") ≠ "" then
        l.filter (fun x => jsTrim x ≠ "") else []) ≠ []) = sfl ∧
    (if (if sfl = true ∧ l.length > 0 ∧ jsTrim (l.headD "") ≠ "" then
        l.filter (fun x => jsTrim x ≠ "") else []) = [] then [""]
      else (if sfl = true ∧ l.length > 0 ∧ jsTrim (l.headD "") ≠ "" then
        l.filter (fun x => jsTrim x ≠ "") else [])) = l := by
  have hemit : (if sfl = true ∧ l.length > 0 ∧ jsTrim (l.headD "") ≠ "" then
      l.filter (fun x => jsTrim x ≠ "") else []) = (if sfl = true then l else []) := by
    cases sfl with
    | false =>
      rw [if_neg (fun hc => Bool.false_ne_true hc.1), if_neg Bool.false_ne_true]
    | true =>
      obtain ⟨hl, hall⟩ := h1 rfl
      have hhead : jsTrim (l.headD "") ≠ "" := by
        cases l with
        | nil => exact absurd rfl hl
        | cons a t => exact hall a (List.mem_cons_self a t)
      rw [if_pos ⟨rfl, List.length_pos.mpr hl, hhead⟩, if_pos rfl]
      exact List.filter_eq_self.mpr (fun x hx => by
        simp only [decide_eq_true_eq]
        exact hall x hx)
  rw [hemit]
  cases sfl with
  | false =>
    rw [if_neg Bool.false_ne_true]
    exact ⟨by decide, by rw [if_pos rfl, h2 rfl]⟩
  | true =>
    obtain ⟨hl, _⟩ := h1 rfl
    rw [if_pos rfl]
    exact ⟨by simp [hl], by rw [if_neg hl]⟩

theorem kindTemplate_roundtrip (k : KindTemplate) (hk : kindFaithful k) :
    kindTemplateOfDocKind k.name (docKindOfTemplate k.config) = k := by
  obtain ⟨kname, kcfg⟩ := k
  obtain ⟨ssc, sc, simg, img, sex, ex, sbd, bd⟩ := kcfg
  obtain ⟨hname, h1, h2, h3, h4, h5, h6, h7, h8⟩ := hk
  dsimp at h1 h2 h3 h4 h5 h6 h7 h8 ⊢
  unfold kindTemplateOfDocKind docKindOfTemplate
  dsimp only
  obtain ⟨hscS, hscV⟩ := docKind_scalar_roundtrip ssc sc h1 h2
  obtain ⟨himgS, himgV⟩ := docKind_scalar_roundtrip simg img h3 h4
  obtain ⟨hexS, hexV⟩ := docKind_list_roundtrip sex ex h5 h6
  obtain ⟨hbdS, hbdV⟩ := docKind_list_roundtrip sbd bd h7 h8
  rw [hscS, hscV, himgS, himgV, hexS, hexV, hbdS, hbdV]

/-- C1 amended: a render/parse cycle started from a state with no previous
document preserves every field the document represents — node identifiers,
labels, kinds, images, management addresses, startup configs, environment
fields, edge endpoints and interfaces, and all settings — under the
hygiene conditions the editor maintains (non-empty unique identifiers,
label = id, populated custom fields with unique keys, interface names
non-empty, identifiers and interfaces free of the `:` delimiter,
username-qualified topology name, hidden fields blank when their section is
off). Positions are NOT preserved: every node is reassigned the parser's
grid position, previously-known identifiers included; bind rows come back in
the document's joined-string representation; edge ids are renumbered. -/
theorem C1_roundtrip_amended (username : String) (st : AppState)
    (hprev : loadOpt st.yamlOutput = none)
    (hnodes : st.nodes ≠ [])
    (hidnodup : (st.nodes.map GraphNode.id).Nodup)
    (hnode : ∀ n ∈ st.nodes, n.id ≠ "" ∧ n.data.label = n.id ∧
      validBindsOf n.data.binds = [] ∧
      (jsTrim n.data.startupConfig = "" → n.data.startupConfig = "") ∧
      n.data.customFields ≠ [] ∧
      (∀ f ∈ n.data.customFields, f.key ≠ "" ∧ f.value ≠ "") ∧
      (n.data.customFields.map CustomField.key).Nodup)
    (hedge : ∀ e ∈ st.edges,
      e.data.sourceInterface ≠ "" ∧ e.data.targetInterface ≠ "" ∧
      jsSplit (e.source ++ ":" ++ e.data.sourceInterface) ':' =
        [e.source, e.data.sourceInterface] ∧
      jsSplit (e.target ++ ":" ++ e.data.targetInterface) ':' =
        [e.target, e.data.targetInterface])
    (hname : jsIncludes st.settings.topologyName username = true)
    (hmgmt : st.settings.showMgmt = false →
      st.settings.mgmtNetwork = "" ∧ st.settings.ipv4Subnet = "")
    (hipv6a : st.settings.showIpv6 = decide (st.settings.ipv6Subnet ≠ ""))
    (hipv6b : st.settings.showMgmt = false → st.settings.ipv6Subnet = "")
    (hkindT : st.settings.showKind = true → st.settings.kinds ≠ [] ∧
      (∀ k ∈ st.settings.kinds, kindFaithful k) ∧
      (st.settings.kinds.map KindTemplate.name).Nodup)
    (hkindF : st.settings.showKind = false → st.settings.kinds = [emptyKindTemplate])
    (hdefT : st.settings.showDefault = true → st.settings.defaultKind ≠ "")
    (hdefF : st.settings.showDefault = false → st.settings.defaultKind = "") :
    (handleYamlChange (updateYamlState username st st.nodes st.edges).yamlOutput
        (updateYamlState username st st.nodes st.edges)).isYamlValid = true ∧
    (handleYamlChange (updateYamlState username st st.nodes st.edges).yamlOutput
        (updateYamlState username st st.nodes st.edges)).settings = st.settings ∧
    (handleYamlChange (updateYamlState username st st.nodes st.edges).yamlOutput
        (updateYamlState username st st.nodes st.edges)).nodes =
      mapWithIndex (fun i n => { n with
        position := gridPosition i,
        data := { n.data with binds := BindsVal.strs [] } }) 0 st.nodes ∧
    (handleYamlChange (updateYamlState username st st.nodes st.edges).yamlOutput
        (updateYamlState username st st.nodes st.edges)).edges =
      mapWithIndex (fun i e => { e with id := "edge_" ++ toString i }) 0 st.edges := by
  obtain ⟨nodes, edges, settings, reg, yo, ey, iv, pe⟩ := st
  obtain ⟨tn, sm, mn, i4, s6, i6, sk, ks, sd, dk⟩ := settings
  dsimp at hprev hnodes hidnodup hnode hedge hname hmgmt hipv6a hipv6b hkindT ⊢
  dsimp at hkindF hdefT hdefF
  unfold updateYamlState
  rw [hprev]
  unfold updateYamlDoc
  dsimp only
  rw [if_neg (fun hc => hnodes hc.1)]
  unfold handleYamlChange
  dsimp only
  have hkey : ∀ n ∈ nodes, docNodeOfGraphNode none n = (n.id, docNodeClean n) := by
    intro n hn
    obtain ⟨ha, hb, hc, hd, he, hf, hg⟩ := hnode n hn
    exact docNodeOfGraphNode_clean n ha hc hd he hf hg
  have hfold : nodes.foldl (fun acc node =>
      objSet acc (docNodeOfGraphNode none node).1 (docNodeOfGraphNode none node).2)
      [] = nodes.map (fun n => (n.id, docNodeClean n)) := by
    rw [foldl_congr_mem
      (g := fun acc (n : GraphNode) => objSet acc n.id (docNodeClean n))
      (fun acc n hn => by rw [hkey n hn]) []]
    have hfr := foldl_objSet_fresh GraphNode.id docNodeClean nodes []
      (fun _ _ => rfl) hidnodup
    simpa using hfr
  refine ⟨rfl, ?_, ?_, ?_⟩
  · -- settings round-trip
    dsimp only
    rw [if_pos hname]
    simp only [Settings.mk.injEq]
    refine ⟨trivial, ?_, ?_, ?_, ?_, ?_, ?_, ?_, ?_, ?_⟩
    · cases sm <;> rfl
    · cases sm with
      | false => exact ((hmgmt rfl).1).symm
      | true => rfl
    · cases sm with
      | false => exact ((hmgmt rfl).2).symm
      | true => rfl
    · cases sm with
      | false =>
        have h6 : i6 = "" := hipv6b rfl
        rw [hipv6a, h6]
        rfl
      | true =>
        cases s6 with
        | false =>
          have h6 : i6 = "" := by
            by_contra hne
            have hd : (decide ¬(i6 = "")) = true := decide_eq_true hne
            rw [hd] at hipv6a
            exact Bool.false_ne_true hipv6a
          simp [h6]
        | true =>
          have h6 : i6 ≠ "" := of_decide_eq_true hipv6a.symm
          simp [h6]
    · cases sm with
      | false =>
        exact (hipv6b rfl).symm
      | true =>
        cases s6 with
        | false =>
          have h6 : i6 = "" := by
            by_contra hne
            have hd : (decide ¬(i6 = "")) = true := decide_eq_true hne
            rw [hd] at hipv6a
            exact Bool.false_ne_true hipv6a
          simp [h6]
        | true =>
          have h6 : i6 ≠ "" := of_decide_eq_true hipv6a.symm
          simp [h6]
    · cases sk with
      | false =>
        rw [if_neg (fun hc => Bool.false_ne_true hc.1)]
        rfl
      | true =>
        obtain ⟨hks, hall, hnod⟩ := hkindT rfl
        have hvk : ks.filter (fun k => jsTrim k.name ≠ "") = ks :=
          List.filter_eq_self.mpr (fun k hk => by
            simp only [decide_eq_true_eq]
            exact (hall k hk).1)
        rw [if_pos ⟨rfl, List.length_pos.mpr hks, by rw [hvk]; exact hks⟩]
        rfl
    · cases sk with
      | false =>
        rw [if_neg (fun hc => Bool.false_ne_true hc.1)]
        exact (hkindF rfl).symm
      | true =>
        obtain ⟨hks, hall, hnod⟩ := hkindT rfl
        have hvk : ks.filter (fun k => jsTrim k.name ≠ "") = ks :=
          List.filter_eq_self.mpr (fun k hk => by
            simp only [decide_eq_true_eq]
            exact (hall k hk).1)
        rw [if_pos ⟨rfl, List.length_pos.mpr hks, by rw [hvk]; exact hks⟩]
        dsimp only
        rw [hvk]
        have hkfold := foldl_objSet_fresh KindTemplate.name
          (fun k => docKindOfTemplate k.config) ks [] (fun _ _ => rfl) hnod
        rw [show ks.foldl (fun acc k => objSet acc k.name (docKindOfTemplate k.config))
            [] = ks.map (fun k => (k.name, docKindOfTemplate k.config)) by
          simpa using hkfold]
        rw [List.map_map]
        have hmapid : ks.map ((fun kv : String × DocKind =>
            kindTemplateOfDocKind kv.1 kv.2) ∘
            (fun k => (k.name, docKindOfTemplate k.config))) = ks.map id :=
          List.map_congr_left (fun k hk => kindTemplate_roundtrip k (hall k hk))
        rw [hmapid, List.map_id]
    · cases sd with
      | false =>
        rw [if_neg (fun hc => Bool.false_ne_true hc.1)]
        rfl
      | true =>
        rw [if_pos ⟨rfl, hdefT rfl⟩]
        rfl
    · cases sd with
      | false =>
        rw [if_neg (fun hc => Bool.false_ne_true hc.1)]
        exact (hdefF rfl).symm
      | true =>
        rw [if_pos ⟨rfl, hdefT rfl⟩]
        rfl
  · -- nodes round-trip
    dsimp only
    rw [hfold, mapWithIndex_map]
    exact mapWithIndex_congr (fun i n hn =>
      graphNodeOfDocNode_clean i n (hnode n hn).2.1 (hnode n hn).2.2.2.2.1) 0
  · -- edges round-trip
    dsimp only
    by_cases hE : edges = []
    · subst hE
      rfl
    · rw [if_pos (by exact List.length_pos.mpr hE)]
      dsimp only [Option.getD_some]
      rw [mapWithIndex_map]
      exact mapWithIndex_congr (fun i e he =>
        edgeOfDocLink_clean i e (hedge e he).1 (hedge e he).2.1 (hedge e he).2.2.1
          (hedge e he).2.2.2) 0

/-- C1 counterexample: parsing back the document just rendered from a
one-node graph keeps the identifier but moves the node from its stored
position (400, 200) to the parser's grid position (100, 100) — the position
of a previously-known identifier is not preserved (`handleYamlChange` never
consults the previous graph for positions). -/
theorem C1_roundtrip_position_counterexample :
    stateOneNode.nodes.map GraphNode.position = [{ x := 400, y := 200 }] ∧
    reparsedOneNode.nodes.map GraphNode.id = stateOneNode.nodes.map GraphNode.id ∧
    reparsedOneNode.nodes.map GraphNode.position = [{ x := 100, y := 100 }] ∧
    reparsedOneNode.isYamlValid = true := by
  decide

/-- C1 amended witness: the round trip instantiated on the concrete one-node
state. -/
theorem C1_roundtrip_amended_witness :
    (handleYamlChange (updateYamlState "u" stateOneNode stateOneNode.nodes
        stateOneNode.edges).yamlOutput
      (updateYamlState "u" stateOneNode stateOneNode.nodes
        stateOneNode.edges)).isYamlValid = true ∧
    (handleYamlChange (updateYamlState "u" stateOneNode stateOneNode.nodes
        stateOneNode.edges).yamlOutput
      (updateYamlState "u" stateOneNode stateOneNode.nodes
        stateOneNode.edges)).settings = stateOneNode.settings ∧
    (handleYamlChange (updateYamlState "u" stateOneNode stateOneNode.nodes
        stateOneNode.edges).yamlOutput
      (updateYamlState "u" stateOneNode stateOneNode.nodes
        stateOneNode.edges)).nodes =
      mapWithIndex (fun i n => { n with
        position := gridPosition i,
        data := { n.data with binds := BindsVal.strs [] } }) 0 stateOneNode.nodes ∧
    (handleYamlChange (updateYamlState "u" stateOneNode stateOneNode.nodes
        stateOneNode.edges).yamlOutput
      (updateYamlState "u" stateOneNode stateOneNode.nodes
        stateOneNode.edges)).edges =
      mapWithIndex (fun i e => { e with id := "edge_" ++ toString i }) 0
        stateOneNode.edges :=
  C1_roundtrip_amended "u" stateOneNode (by decide) (by decide) (by decide)
    (by decide) (by decide) (by decide) (by decide) (by decide) (by decide)
    (by decide) (by decide) (by decide) (by decide)

end ClabStudio
